import Mathlib

/-!
The service-lifecycle supervisor of nginx-service.

A shallow embedding of `server.go` (package `main`): the Consul registrar
`registerServiceWithConsul`, the configuration helpers `getEnvOrDefault` and
`mustAtoi`, the two runners `startGraphQLServer` / `startGRPCServer` and the
supervising `main`.

Conventions of the embedding.

* Calls into libraries outside the repository (the Consul client, `net`,
  `net/http`, `grpc`) are answered by an explicit oracle argument, so every
  theorem quantifies over what those calls may do.
* A Go function that may panic returns a `Completion`: either it returned, or
  a panic is unwinding with a value.  `defer` + `recover()` is the function
  `recoverWith`.
* The steps of the registration code (library calls, sleeps, log lines) are
  collected in a trace, a `List Event`, in program order.
* Durations are `time.Duration` values, i.e. natural numbers of nanoseconds.
-/

namespace NginxService

/-! ## Go runtime vocabulary -/

/-- The error type `*strconv.NumError`: the failing function, its input and
the text of the underlying error (`strconv.ErrSyntax` or `strconv.ErrRange`). -/
structure NumError where
  Func : String
  Num : String
  Err : String
  deriving DecidableEq, Repr

/-- A value passed to `panic`: the conversion error of `mustAtoi` (line 216),
or a value raised inside a library call, which stands as a string. -/
inductive PanicValue
  | numError (e : NumError)
  | library (v : String)
  deriving DecidableEq, Repr

/-- How a Go function call ends: it returns a value, or a panic unwinds. -/
inductive Completion (α : Type)
  | returned (a : α)
  | panicked (v : PanicValue)
  deriving DecidableEq, Repr

/-- The constant `time.Second`, in nanoseconds. -/
def Second : Nat := 1000000000

/-! ## The Consul registration payload (`api.AgentServiceRegistration`) -/

/-- The fields of `api.AgentServiceCheck` set at lines 127-132. -/
structure AgentServiceCheck where
  HTTP : String
  Interval : String
  Timeout : String
  DeregisterCriticalServiceAfter : String
  deriving DecidableEq, Repr

/-- The fields of `api.AgentServiceRegistration` set at lines 121-133. -/
structure AgentServiceRegistration where
  ID : String
  Name : String
  Port : Int
  Address : String
  Tags : List String
  Check : AgentServiceCheck
  deriving DecidableEq, Repr

/-! ## `fmt.Sprintf` for the verbs used by the program -/

/-- An operand of `fmt.Sprintf`. -/
inductive FmtArg
  | str (s : String)
  | int (i : Int)
  deriving DecidableEq, Repr

/-- Decimal rendering of a Go `int` by the verb `%d`: a minus sign for a
negative number, then the digits of the magnitude. -/
def formatInt (i : Int) : List Char :=
  match i with
  | Int.ofNat n => Nat.toDigits 10 n
  | Int.negSucc n => '-' :: Nat.toDigits 10 (n + 1)

/-- The scanning loop of `fmt.Sprintf`, for the verbs `%s` (with a string
operand) and `%d` (with an integer operand); every other character is copied. -/
def sprintfAux : List Char → List FmtArg → List Char
  | [], _ => []
  | [c], _ => [c]
  | c :: v :: rest, args =>
    if c = '%' then
      match args with
      | FmtArg.str s :: args2 =>
        if v = 's' then s.data ++ sprintfAux rest args2
        else c :: sprintfAux (v :: rest) args
      | FmtArg.int i :: args2 =>
        if v = 'd' then formatInt i ++ sprintfAux rest args2
        else c :: sprintfAux (v :: rest) args
      | [] => c :: sprintfAux (v :: rest) args
    else c :: sprintfAux (v :: rest) args

/-- The call `fmt.Sprintf(format, args...)`. -/
def Sprintf (format : String) (args : List FmtArg) : String :=
  String.mk (sprintfAux format.data args)

/-! ## `registerServiceWithConsul` (lines 94-150) -/

/-- What one call into the Consul client library does. -/
inductive CallResult
  | ok
  | err (e : String)
  | panics (v : String)
  deriving DecidableEq, Repr

/-- What the two library calls of one attempt do: `api.NewClient` (line 115)
and `Agent().ServiceRegister` (line 135). -/
structure AttemptOutcome where
  newClient : CallResult
  serviceRegister : CallResult
  deriving DecidableEq, Repr

/-- The log statements of the registrar and of `main`, by source line. -/
inductive LogLine
  | recoveredRegistration (serviceName : String) (v : PanicValue)
  | recoveredAttempt (serviceName : String) (attempt maxRetries : Nat) (v : PanicValue)
  | clientError (serviceName : String) (attempt maxRetries : Nat) (e : String)
  | registerFailed (serviceName : String) (attempt maxRetries : Nat) (e : String)
  | registered (serviceName : String)
  | completed (serviceName : String)
  | registrationDisabled
  deriving DecidableEq, Repr

/-- The steps of the registration code, in program order: the library calls,
the sleeps, the log lines, and the conversions `mustAtoi(s)` of lines 167 and
168. -/
inductive Event
  | newClient (httpTimeout : Nat)
  | serviceRegister (registration : AgentServiceRegistration)
  | sleep (d : Nat)
  | log (l : LogLine)
  | mustAtoi (s : String)
  deriving DecidableEq, Repr

/-- A deferred `func() { if r := recover(); r != nil { log.Printf(...) } }()`
around a body: a panic of the body is logged and the function returns. -/
def recoverWith (onPanic : PanicValue → LogLine)
    (body : List Event × Completion Unit) : List Event × Completion Unit :=
  match body.2 with
  | Completion.panicked v => (body.1 ++ [Event.log (onPanic v)], Completion.returned ())
  | Completion.returned a => (body.1, Completion.returned a)

/-- The registration value built at lines 121-133. -/
def mkRegistration (serviceID serviceName serviceAddress : String) (servicePort : Int)
    (tags : List String) : AgentServiceRegistration :=
  { ID := serviceID
    Name := serviceName
    Port := servicePort
    Address := serviceAddress
    Tags := tags
    Check :=
      { HTTP := Sprintf "http://%s:%d/health" [FmtArg.str serviceAddress, FmtArg.int servicePort]
        Interval := "10s"
        Timeout := "5s"
        DeregisterCriticalServiceAfter := "1m" } }

/-- The statements of the per-attempt closure, lines 112-141, without its
deferred recover. -/
def attemptBody (serviceID serviceName serviceAddress : String) (servicePort : Int)
    (tags : List String) (attempt maxRetries : Nat) (oc : AttemptOutcome) :
    List Event × Completion Unit :=
  match oc.newClient with
  | CallResult.panics v =>
    ([Event.newClient (5 * Second)], Completion.panicked (PanicValue.library v))
  | CallResult.err e =>
    ([Event.newClient (5 * Second),
      Event.log (LogLine.clientError serviceName attempt maxRetries e)], Completion.returned ())
  | CallResult.ok =>
    let registration := mkRegistration serviceID serviceName serviceAddress servicePort tags
    match oc.serviceRegister with
    | CallResult.panics v =>
      ([Event.newClient (5 * Second), Event.serviceRegister registration],
       Completion.panicked (PanicValue.library v))
    | CallResult.err e =>
      ([Event.newClient (5 * Second), Event.serviceRegister registration,
        Event.log (LogLine.registerFailed serviceName attempt maxRetries e)],
       Completion.returned ())
    | CallResult.ok =>
      ([Event.newClient (5 * Second), Event.serviceRegister registration,
        Event.log (LogLine.registered serviceName)], Completion.returned ())

/-- The per-attempt closure, lines 105-142: the body under its deferred
recover (lines 106-110). -/
def attemptClosure (serviceID serviceName serviceAddress : String) (servicePort : Int)
    (tags : List String) (attempt maxRetries : Nat) (oc : AttemptOutcome) :
    List Event × Completion Unit :=
  recoverWith (fun v => LogLine.recoveredAttempt serviceName attempt maxRetries v)
    (attemptBody serviceID serviceName serviceAddress servicePort tags attempt maxRetries oc)

/-- The loop `for attempt := 1; attempt <= maxRetries; attempt++` of lines
104-147, entered at the given value of `attempt`.  The oracle gives the
outcome of the library calls of each attempt. -/
def retryLoop (serviceID serviceName serviceAddress : String) (servicePort : Int)
    (tags : List String) (maxRetries retryDelay : Nat) (oracle : Nat → AttemptOutcome)
    (attempt : Nat) : List Event × Completion Unit :=
  if attempt ≤ maxRetries then
    let call := attemptClosure serviceID serviceName serviceAddress servicePort tags
      attempt maxRetries (oracle attempt)
    match call.2 with
    | Completion.panicked v => (call.1, Completion.panicked v)
    | Completion.returned _ =>
      let pause := if attempt < maxRetries then [Event.sleep retryDelay] else []
      let next := retryLoop serviceID serviceName serviceAddress servicePort tags
        maxRetries retryDelay oracle (attempt + 1)
      (call.1 ++ pause ++ next.1, next.2)
  else ([], Completion.returned ())
termination_by maxRetries + 1 - attempt
decreasing_by omega

/-- The function `registerServiceWithConsul`, lines 94-150. -/
def registerServiceWithConsul (serviceID serviceName serviceAddress : String)
    (servicePort : Int) (tags : List String) (oracle : Nat → AttemptOutcome) :
    List Event × Completion Unit :=
  recoverWith (fun v => LogLine.recoveredRegistration serviceName v)
    (let maxRetries := 5
     let retryDelay := 5 * Second
     let loop := retryLoop serviceID serviceName serviceAddress servicePort tags
       maxRetries retryDelay oracle 1
     match loop.2 with
     | Completion.panicked v => (loop.1, Completion.panicked v)
     | Completion.returned _ =>
       (loop.1 ++ [Event.log (LogLine.completed serviceName)], Completion.returned ()))

/-! ## Reading a trace -/

/-- Number of registration attempts in a trace: every run of the per-attempt
closure starts with exactly one `api.NewClient` call. -/
def attempts (t : List Event) : Nat :=
  (t.filter fun e => match e with
    | Event.newClient _ => true
    | _ => false).length

/-- The registrations handed to `ServiceRegister`, in order. -/
def registrations : List Event → List AgentServiceRegistration
  | [] => []
  | Event.serviceRegister r :: t => r :: registrations t
  | _ :: t => registrations t

/-- The durations slept, in order. -/
def sleeps : List Event → List Nat
  | [] => []
  | Event.sleep d :: t => d :: sleeps t
  | _ :: t => sleeps t

/-- The attempts and the sleeps of a trace, in order: its `api.NewClient`
calls and its `time.Sleep` calls. -/
def timeline (t : List Event) : List Event :=
  t.filter fun e => match e with
    | Event.newClient _ => true
    | Event.sleep _ => true
    | _ => false

/-- A trace without its log lines: the library calls and the sleeps. -/
def schedule (t : List Event) : List Event :=
  t.filter fun e => match e with
    | Event.log _ => false
    | _ => true

/-- An attempt succeeds when both library calls succeed. -/
def AttemptOutcome.succeeds (oc : AttemptOutcome) : Bool :=
  match oc.newClient, oc.serviceRegister with
  | CallResult.ok, CallResult.ok => true
  | _, _ => false

/-- The ordinary failure that stands for a call: a panic with value `v`
becomes the error `v`, anything else is unchanged. -/
def CallResult.asFailure : CallResult → CallResult
  | CallResult.panics v => CallResult.err v
  | r => r

/-- An attempt outcome with every panic replaced by an ordinary failure. -/
def AttemptOutcome.asFailure (oc : AttemptOutcome) : AttemptOutcome :=
  { newClient := oc.newClient.asFailure, serviceRegister := oc.serviceRegister.asFailure }

/-- A registry client that rejects the first two registrations and accepts
every later one. -/
def failTwiceThenSucceed (attempt : Nat) : AttemptOutcome :=
  if attempt < 3 then { newClient := CallResult.ok, serviceRegister := CallResult.err "rejected" }
  else { newClient := CallResult.ok, serviceRegister := CallResult.ok }

/-- A registry client that rejects every registration. -/
def alwaysFails (_attempt : Nat) : AttemptOutcome :=
  { newClient := CallResult.ok, serviceRegister := CallResult.err "rejected" }

/-- A registry client that accepts every registration. -/
def alwaysSucceeds (_attempt : Nat) : AttemptOutcome :=
  { newClient := CallResult.ok, serviceRegister := CallResult.ok }

/-! ## Configuration: `getEnvOrDefault`, `mustAtoi` and the start of `main` -/

/-- The process environment, as seen through `os.LookupEnv`: `none` when the
variable is unset, `some value` (possibly empty) when it is set. -/
abbrev Env := String → Option String

/-- The function `getEnvOrDefault`, lines 206-211. -/
def getEnvOrDefault (env : Env) (key defaultValue : String) : String :=
  match env key with
  | some value => value
  | none => defaultValue

/-- Value of an ASCII decimal digit. -/
def digitValue (c : Char) : Option Nat :=
  if '0' ≤ c ∧ c ≤ '9' then some (c.toNat - '0'.toNat) else none

/-- The digit loop of `strconv.ParseUint(s, 10, 64)`, with `n` the value
accumulated so far: a character that is not a digit is a syntax error, a value
that leaves the range of `uint64` is a range error, whichever comes first. -/
def parseUintLoop : List Char → Nat → Except String Nat
  | [], n => Except.ok n
  | c :: cs, n =>
    match digitValue c with
    | none => Except.error "invalid syntax"
    | some d =>
      if 2 ^ 64 / 10 + 1 ≤ n then Except.error "value out of range"
      else if 2 ^ 64 - 1 < n * 10 + d then Except.error "value out of range"
      else parseUintLoop cs (n * 10 + d)

/-- The result of `strconv.ParseInt(s, 10, 0)` on a 64-bit platform, as a
value or the text of the underlying error: an optional sign, then one or more
decimal digits, the value within the range of `int`. -/
def parseInt (s : List Char) : Except String Int :=
  if s = [] then Except.error "invalid syntax"
  else
    let signed : Bool × List Char :=
      match s with
      | '-' :: ds => (true, ds)
      | '+' :: ds => (false, ds)
      | ds => (false, ds)
    if signed.2 = [] then Except.error "invalid syntax"
    else
      match parseUintLoop signed.2 0 with
      | Except.error err => Except.error err
      | Except.ok un =>
        if signed.1 = false ∧ 2 ^ 63 ≤ un then Except.error "value out of range"
        else if signed.1 = true ∧ 2 ^ 63 < un then Except.error "value out of range"
        else Except.ok (if signed.1 then -(un : Int) else (un : Int))

/-- The library function `strconv.Atoi`: the value of `ParseInt(s, 10, 0)`, or
the `*NumError` that names `Atoi` and the input.  (The fast path of `Atoi` for
short inputs agrees with `ParseInt`.) -/
def Atoi (s : String) : Except NumError Int :=
  match parseInt s.data with
  | Except.error err => Except.error { Func := "Atoi", Num := s, Err := err }
  | Except.ok i => Except.ok i

/-- The function `mustAtoi`, lines 213-219: it panics with the conversion
error. -/
def mustAtoi (s : String) : Completion Int :=
  match Atoi s with
  | Except.error err => Completion.panicked (PanicValue.numError err)
  | Except.ok i => Completion.returned i

/-- The configuration read at lines 153-156. -/
structure Config where
  graphqlPort : String
  grpcPort : String
  serviceAddress : String
  consulEnabled : Bool
  deriving DecidableEq, Repr

/-- Lines 153-156 of `main`. -/
def loadConfig (env : Env) : Config :=
  { graphqlPort := getEnvOrDefault env "GRAPHQL_PORT" "4001"
    grpcPort := getEnvOrDefault env "GRPC_PORT" "50051"
    serviceAddress := getEnvOrDefault env "SERVICE_ADDRESS" "localhost"
    consulEnabled := decide (getEnvOrDefault env "CONSUL_ENABLED" "true" = "true") }

/-- The statements of the goroutine of lines 166-169 in program order, and how
the goroutine ends after the last of them.  The arguments of each call are
evaluated before the call, so `mustAtoi` runs in the goroutine itself, outside
the deferred recover of `registerServiceWithConsul`; `Completion.panicked` is
a panic that reaches the top of the goroutine.  These are the steps the
goroutine performs when the process lives long enough: the goroutine is never
joined (`wg` counts the two runners only), so it ends with the process, and
how many of its steps are performed is decided by `registrationMoves`. -/
def registrationProgram (cfg : Config) (graphqlOracle grpcOracle : Nat → AttemptOutcome) :
    List Event × Completion Unit :=
  match mustAtoi cfg.graphqlPort with
  | Completion.panicked v => ([Event.mustAtoi cfg.graphqlPort], Completion.panicked v)
  | Completion.returned graphqlPort =>
    let first := registerServiceWithConsul "graphql-service" "GraphQL" cfg.serviceAddress
      graphqlPort ["graphql", "http"] graphqlOracle
    match first.2 with
    | Completion.panicked v => (Event.mustAtoi cfg.graphqlPort :: first.1, Completion.panicked v)
    | Completion.returned _ =>
      match mustAtoi cfg.grpcPort with
      | Completion.panicked v =>
        (Event.mustAtoi cfg.graphqlPort :: first.1 ++ [Event.mustAtoi cfg.grpcPort],
         Completion.panicked v)
      | Completion.returned grpcPort =>
        let second := registerServiceWithConsul "grpc-service" "gRPC" cfg.serviceAddress
          grpcPort ["grpc"] grpcOracle
        (Event.mustAtoi cfg.graphqlPort :: first.1 ++ Event.mustAtoi cfg.grpcPort :: second.1,
         second.2)

/-- Lines 153-172 of `main`: the log lines written by `main` itself, and the
program of the registration goroutine when one is launched. -/
def mainRegistration (env : Env) (graphqlOracle grpcOracle : Nat → AttemptOutcome) :
    List Event × Option (List Event × Completion Unit) :=
  let cfg := loadConfig env
  if cfg.consulEnabled then
    ([], some (registrationProgram cfg graphqlOracle grpcOracle))
  else
    ([Event.log LogLine.registrationDisabled], none)

/-- The environment with no variable set. -/
def emptyEnv : Env := fun _ => none

/-- The environment in which only the given variable is set. -/
def singleEnv (key value : String) : Env :=
  fun k => if k = key then some value else none

/-- Whether an event hands a registration with the given service ID to the
registry. -/
def isRegistrationOf (serviceID : String) (e : Event) : Bool :=
  match e with
  | Event.serviceRegister r => r.ID = serviceID
  | _ => false

/-! ## The runners and the supervising `main` (lines 48-92 and 158-204)

The goroutines that exist once `main` has launched its runners (`main`, the
two runner goroutines, the two serve goroutines and, when registration is
enabled, the registration goroutine) are modelled as a transition system: a
state holds the program point of each goroutine and the shared channels, and
`step` lists the states reachable by one atomic move of one goroutine.  The
process ends, and every goroutine with it, when `main` returns or when a panic
reaches the top of a goroutine. -/

/-- How the libraries and the operating system behave in one execution. -/
structure Scenario where
  /-- `server.ListenAndServe` (line 60) manages to bind the GraphQL port. -/
  graphqlBind : Bool
  /-- Once serving, `ListenAndServe` may fail with an error other than
  `http.ErrServerClosed`. -/
  graphqlServeFails : Bool
  /-- The call `server.Shutdown(ctx)` (line 68) returns the deadline error. -/
  graphqlShutdownFails : Bool
  /-- The call `net.Listen` (line 72) manages to bind the gRPC port. -/
  grpcBind : Bool
  /-- Once serving, `grpcServer.Serve` (line 84) may fail with an error. -/
  grpcServeFails : Bool
  /-- An interrupt or termination signal is delivered to `sigChan`. -/
  signal : Bool
  /-- The program of the registration goroutine, the second component of
  `mainRegistration`; `none` when registration is disabled. -/
  registration : Option (List Event × Completion Unit)
  deriving DecidableEq, Repr

/-- The errors a runner function can return. -/
inductive RunnerError
  /-- The error of `net.Listen`, returned at line 74. -/
  | listen
  /-- The error of `server.Shutdown`, returned at line 68. -/
  | shutdown
  deriving DecidableEq, Repr

/-- Program point of a goroutine of lines 175-180 or 183-188, which runs one
runner function and reports its error. -/
inductive RunnerPc
  /-- The runner function has not started. -/
  | entry
  /-- The runner function is blocked on the receive from `stopChan` (line 65
  or 89). -/
  | awaitStop
  /-- The runner function has returned; the error, if any, is still to be
  sent on `errorChan` and `wg.Done` is still to run. -/
  | returned (err : Option RunnerError)
  /-- The goroutine has finished. -/
  | done
  deriving DecidableEq, Repr

/-- Program point of a serve goroutine (lines 58-63 or 82-87). -/
inductive ServePc
  /-- The goroutine has not been launched. -/
  | notLaunched
  /-- Launched, the serve call not yet made. -/
  | launched
  /-- Inside the serve call, accepting connections. -/
  | serving
  /-- The serve call returned; `logged` tells whether the goroutine wrote its
  server error log line. -/
  | exited (logged : Bool)
  deriving DecidableEq, Repr

/-- Program point of `main` from line 194 on; these are the Supervisor states
Running, ShuttingDown (before and after `close(stopChan)`) and Stopped. -/
inductive MainPc
  /-- Blocked in the `select` of lines 194-199. -/
  | running
  /-- A `select` case was taken; `close(stopChan)` is next (line 201). -/
  | shuttingDown
  /-- In `wg.Wait()` (line 202). -/
  | waiting
  /-- The function `main` has returned and the process has exited. -/
  | stopped
  deriving DecidableEq, Repr

/-- A state of the process after `main` has launched the runner goroutines. -/
structure State where
  graphql : RunnerPc
  graphqlServe : ServePc
  grpc : RunnerPc
  grpcServe : ServePc
  main : MainPc
  /-- Content of the buffered channel `errorChan` (capacity 2), oldest first. -/
  errorChan : List RunnerError
  /-- Whether `stopChan` has been closed. -/
  stopClosed : Bool
  /-- The counter of the wait group `wg`. -/
  wg : Nat
  /-- Number of steps of its program the registration goroutine has performed. -/
  registrationSteps : Nat
  /-- Whether a panic has reached the top of a goroutine and the Go runtime has
  terminated the process. -/
  crashed : Bool
  deriving DecidableEq, Repr

/-- The state at line 190: `wg.Add(2)` done, both channels made, both runner
goroutines launched and not yet started. -/
def State.initial : State :=
  { graphql := RunnerPc.entry
    graphqlServe := ServePc.notLaunched
    grpc := RunnerPc.entry
    grpcServe := ServePc.notLaunched
    main := MainPc.running
    errorChan := []
    stopClosed := false
    wg := 2
    registrationSteps := 0
    crashed := false }

/-- Whether a runner function has returned, i.e. its server was shut down. -/
def RunnerPc.hasReturned : RunnerPc → Bool
  | RunnerPc.returned _ => true
  | RunnerPc.done => true
  | _ => false

/-- The end of a runner goroutine (lines 176-179 and 184-187): a non-nil error
is sent on `errorChan` when the buffer has room, then the deferred `wg.Done`
runs. -/
def reportAndFinish (err : Option RunnerError) (s : State) : List State :=
  match err with
  | none => [{ s with wg := s.wg - 1 }]
  | some e =>
    if s.errorChan.length < 2 then [{ s with errorChan := s.errorChan ++ [e], wg := s.wg - 1 }]
    else []

/-- Moves of the goroutine that runs `startGraphQLServer` (lines 48-69 under
lines 175-180).  The function launches the serve goroutine and blocks on
`stopChan`; nothing before line 65 can make it return. -/
def graphqlMoves (sc : Scenario) (s : State) : List State :=
  match s.graphql with
  | RunnerPc.entry =>
    [{ s with graphql := RunnerPc.awaitStop, graphqlServe := ServePc.launched }]
  | RunnerPc.awaitStop =>
    if s.stopClosed then
      let err := if sc.graphqlShutdownFails then some RunnerError.shutdown else none
      [{ s with graphql := RunnerPc.returned err }]
    else []
  | RunnerPc.returned err =>
    (reportAndFinish err s).map fun t => { t with graphql := RunnerPc.done }
  | RunnerPc.done => []

/-- Moves of the GraphQL serve goroutine (lines 58-63): `ListenAndServe` binds
and serves, and any error other than `http.ErrServerClosed` is only logged. -/
def graphqlServeMoves (sc : Scenario) (s : State) : List State :=
  match s.graphqlServe with
  | ServePc.notLaunched => []
  | ServePc.launched =>
    if s.graphql.hasReturned then [{ s with graphqlServe := ServePc.exited false }]
    else if sc.graphqlBind then [{ s with graphqlServe := ServePc.serving }]
    else [{ s with graphqlServe := ServePc.exited true }]
  | ServePc.serving =>
    (if s.graphql.hasReturned then [{ s with graphqlServe := ServePc.exited false }] else []) ++
    (if sc.graphqlServeFails then [{ s with graphqlServe := ServePc.exited true }] else [])
  | ServePc.exited _ => []

/-- Moves of the goroutine that runs `startGRPCServer` (lines 71-92 under
lines 183-188): a failed `net.Listen` makes the function return the error at
once; otherwise it launches the serve goroutine and blocks on `stopChan`. -/
def grpcMoves (sc : Scenario) (s : State) : List State :=
  match s.grpc with
  | RunnerPc.entry =>
    if sc.grpcBind then [{ s with grpc := RunnerPc.awaitStop, grpcServe := ServePc.launched }]
    else [{ s with grpc := RunnerPc.returned (some RunnerError.listen) }]
  | RunnerPc.awaitStop =>
    if s.stopClosed then [{ s with grpc := RunnerPc.returned none }] else []
  | RunnerPc.returned err =>
    (reportAndFinish err s).map fun t => { t with grpc := RunnerPc.done }
  | RunnerPc.done => []

/-- Moves of the gRPC serve goroutine (lines 82-87): any error of `Serve` is
only logged. -/
def grpcServeMoves (sc : Scenario) (s : State) : List State :=
  match s.grpcServe with
  | ServePc.notLaunched => []
  | ServePc.launched =>
    if s.grpc.hasReturned then [{ s with grpcServe := ServePc.exited true }]
    else [{ s with grpcServe := ServePc.serving }]
  | ServePc.serving =>
    (if s.grpc.hasReturned then [{ s with grpcServe := ServePc.exited false }] else []) ++
    (if sc.grpcServeFails then [{ s with grpcServe := ServePc.exited true }] else [])
  | ServePc.exited _ => []

/-- Moves of `main` (lines 194-203): the `select` takes the signal case or
receives the oldest error, then `stopChan` is closed, then `wg.Wait` returns
once the counter is zero. -/
def mainMoves (sc : Scenario) (s : State) : List State :=
  match s.main with
  | MainPc.running =>
    (if sc.signal then [{ s with main := MainPc.shuttingDown }] else []) ++
    (match s.errorChan with
      | [] => []
      | _ :: rest => [{ s with main := MainPc.shuttingDown, errorChan := rest }])
  | MainPc.shuttingDown => [{ s with main := MainPc.waiting, stopClosed := true }]
  | MainPc.waiting => if s.wg = 0 then [{ s with main := MainPc.stopped }] else []
  | MainPc.stopped => []

/-- Moves of the registration goroutine (lines 166-169): it performs the next
step of its program, and when the program ends in a panic, the panic reaches
the top of the goroutine and terminates the process. -/
def registrationMoves (sc : Scenario) (s : State) : List State :=
  match sc.registration with
  | none => []
  | some program =>
    if s.registrationSteps < program.1.length then
      [{ s with registrationSteps := s.registrationSteps + 1 }]
    else
      match program.2 with
      | Completion.panicked _ => [{ s with crashed := true }]
      | Completion.returned _ => []

/-- The states reachable by one move of one goroutine.  Once `main` has
returned or the process has crashed, the process is gone and nothing moves. -/
def step (sc : Scenario) (s : State) : List State :=
  if s.main = MainPc.stopped ∨ s.crashed = true then []
  else graphqlMoves sc s ++ graphqlServeMoves sc s ++ grpcMoves sc s ++ grpcServeMoves sc s ++
    mainMoves sc s ++ registrationMoves sc s

/-- The steps the registration goroutine has performed in a state: the first
`registrationSteps` steps of its program. -/
def State.registrationTrace (sc : Scenario) (s : State) : List Event :=
  match sc.registration with
  | none => []
  | some program => program.1.take s.registrationSteps

/-- The states an execution can be in. -/
inductive Reachable (sc : Scenario) : State → Prop
  | initial : Reachable sc State.initial
  | step {s t : State} : Reachable sc s → t ∈ step sc s → Reachable sc t

/-- The states reached after exactly the given number of moves. -/
def statesAfter (sc : Scenario) : Nat → List State
  | 0 => [State.initial]
  | n + 1 => (statesAfter sc n).flatMap (step sc)

/-- Only the GraphQL port fails to bind; no signal arrives; registration is
disabled. -/
def graphqlBindFailure : Scenario :=
  { graphqlBind := false, graphqlServeFails := false, graphqlShutdownFails := false,
    grpcBind := true, grpcServeFails := false, signal := false,
    registration := none }

/-- Both ports bind and the gRPC serve loop fails; no signal arrives;
registration is disabled. -/
def grpcServeFailure : Scenario :=
  { graphqlBind := true, graphqlServeFails := false, graphqlShutdownFails := false,
    grpcBind := true, grpcServeFails := true, signal := false,
    registration := none }

/-- Both ports bind and the GraphQL serve loop fails; no signal arrives;
registration is disabled. -/
def graphqlServeFailure : Scenario :=
  { graphqlBind := true, graphqlServeFails := true, graphqlShutdownFails := false,
    grpcBind := true, grpcServeFails := false, signal := false,
    registration := none }

/-- Nothing has been reported and nothing has been stopped: `main` is still in
its `select`, `stopChan` is open, `errorChan` is empty and both runner
functions are at or before their receive from `stopChan`. -/
def Quiet (s : State) : Prop :=
  s.main = MainPc.running ∧ s.stopClosed = false ∧ s.errorChan = [] ∧ s.wg = 2 ∧
  (s.graphql = RunnerPc.entry ∨ s.graphql = RunnerPc.awaitStop) ∧
  (s.grpc = RunnerPc.entry ∨ s.grpc = RunnerPc.awaitStop)

/-- The state in which the execution with a failed GraphQL bind comes to rest:
the bind error is logged, the gRPC server serves, and everything else waits. -/
def restAfterGraphqlBindFailure : State :=
  { graphql := RunnerPc.awaitStop
    graphqlServe := ServePc.exited true
    grpc := RunnerPc.awaitStop
    grpcServe := ServePc.serving
    main := MainPc.running
    errorChan := []
    stopClosed := false
    wg := 2
    registrationSteps := 0
    crashed := false }

/-- The state in which the execution with a failed gRPC serve loop comes to
rest: the serve error is logged, the GraphQL server serves, and everything
else waits. -/
def restAfterGrpcServeFailure : State :=
  { graphql := RunnerPc.awaitStop
    graphqlServe := ServePc.serving
    grpc := RunnerPc.awaitStop
    grpcServe := ServePc.exited true
    main := MainPc.running
    errorChan := []
    stopClosed := false
    wg := 2
    registrationSteps := 0
    crashed := false }

/-- The state in which the execution with a failed GraphQL serve loop comes to
rest. -/
def restAfterGraphqlServeFailure : State :=
  { graphql := RunnerPc.awaitStop
    graphqlServe := ServePc.exited true
    grpc := RunnerPc.awaitStop
    grpcServe := ServePc.serving
    main := MainPc.running
    errorChan := []
    stopClosed := false
    wg := 2
    registrationSteps := 0
    crashed := false }

/-- One for a runner goroutine that has not finished, zero for one that has:
its contribution to the wait-group counter. -/
def RunnerPc.undone : RunnerPc → Nat
  | RunnerPc.done => 0
  | _ => 1

/-- Weight of a runner goroutine in the rank of a state.  The first move also
launches the serve goroutine, so it weighs more than the rank a serve
goroutine can gain. -/
def RunnerPc.rank : RunnerPc → Nat
  | RunnerPc.entry => 5
  | RunnerPc.awaitStop => 2
  | RunnerPc.returned _ => 1
  | RunnerPc.done => 0

/-- Weight of a serve goroutine in the rank of a state. -/
def ServePc.rank : ServePc → Nat
  | ServePc.notLaunched => 3
  | ServePc.launched => 2
  | ServePc.serving => 1
  | ServePc.exited _ => 0

/-- Weight of `main` in the rank of a state. -/
def MainPc.rank : MainPc → Nat
  | MainPc.running => 3
  | MainPc.shuttingDown => 2
  | MainPc.waiting => 1
  | MainPc.stopped => 0

/-- A bound on the number of moves left in a state: the weights of the
goroutines, the steps left in the program of the registration goroutine, and
one for the crash that has not happened. -/
def State.rank (sc : Scenario) (s : State) : Nat :=
  s.graphql.rank + s.graphqlServe.rank + s.grpc.rank + s.grpcServe.rank + s.main.rank +
    (match sc.registration with
      | none => 0
      | some program => program.1.length - s.registrationSteps) +
    (if s.crashed then 0 else 1)

/-- What holds of every reachable state: the wait-group counter counts the
unfinished runner goroutines, `errorChan` has room for the error of every
unfinished runner, `stopChan` is closed once `main` waits, `main` returns only
when the counter is zero; and when the gRPC port cannot be bound the gRPC
runner never serves, returns only the listen error, and its error is in
`errorChan` until `main` takes it. -/
def Coordinated (sc : Scenario) (s : State) : Prop :=
  s.wg = s.graphql.undone + s.grpc.undone ∧
  s.errorChan.length + s.graphql.undone + s.grpc.undone ≤ 2 ∧
  ((s.main = MainPc.waiting ∨ s.main = MainPc.stopped) → s.stopClosed = true) ∧
  (s.main = MainPc.stopped → s.wg = 0) ∧
  (sc.grpcBind = false →
    s.grpcServe = ServePc.notLaunched ∧
    (s.grpc = RunnerPc.entry ∨ s.grpc = RunnerPc.returned (some RunnerError.listen) ∨
      s.grpc = RunnerPc.done) ∧
    (s.main = MainPc.running → s.grpc = RunnerPc.done → s.errorChan ≠ []))

/-! ## Shutdown latency of the runners (lines 65-68 and 89-91)

Time is counted in nanoseconds from the moment the runner function observes
the closed `stopChan`.  The argument `inflight` is the time the requests in
flight at that moment still need to complete. -/

/-- The library call `(*http.Server).Shutdown(ctx)` with a context that expires
after `timeout`: it returns when the requests in flight have completed, or
with the error of the context when the context expires first.  The result is
the time the call takes and the error it returns. -/
def httpShutdown (timeout inflight : Nat) : Nat × Option RunnerError :=
  if inflight ≤ timeout then (inflight, none) else (timeout, some RunnerError.shutdown)

/-- The library call `(*grpc.Server).GracefulStop()`: it takes no context and
blocks until all pending RPCs are finished.  The result is the time the call
takes. -/
def grpcGracefulStop (inflight : Nat) : Nat := inflight

/-- Lines 65-68 of `startGraphQLServer`: `Shutdown` under
`context.WithTimeout(context.Background(), 5*time.Second)`, whose result is
returned.  The result is the time until the function returns and the error it
returns. -/
def startGraphQLServer.afterStop (inflight : Nat) : Nat × Option RunnerError :=
  httpShutdown (5 * Second) inflight

/-- Lines 89-91 of `startGRPCServer`: `GracefulStop()`, then `return nil`. -/
def startGRPCServer.afterStop (inflight : Nat) : Nat × Option RunnerError :=
  (grpcGracefulStop inflight, none)

/-! ## Lemmas on the registrar -/

theorem attemptClosure_returns (serviceID serviceName serviceAddress : String)
    (servicePort : Int) (tags : List String) (attempt maxRetries : Nat) (oc : AttemptOutcome) :
    (attemptClosure serviceID serviceName serviceAddress servicePort tags attempt maxRetries
      oc).2 = Completion.returned () := by
  rcases oc with ⟨c, r⟩
  cases c <;> cases r <;> simp [attemptClosure, attemptBody, recoverWith]

/-- The trace of the registrar, attempt by attempt: five runs of the closure,
a sleep after each of the first four, then the completion log line. -/
theorem registerServiceWithConsul_unfold (serviceID serviceName serviceAddress : String)
    (servicePort : Int) (tags : List String) (oracle : Nat → AttemptOutcome) :
    registerServiceWithConsul serviceID serviceName serviceAddress servicePort tags oracle =
      ((attemptClosure serviceID serviceName serviceAddress servicePort tags 1 5 (oracle 1)).1
        ++ [Event.sleep (5 * Second)]
        ++ (attemptClosure serviceID serviceName serviceAddress servicePort tags 2 5 (oracle 2)).1
        ++ [Event.sleep (5 * Second)]
        ++ (attemptClosure serviceID serviceName serviceAddress servicePort tags 3 5 (oracle 3)).1
        ++ [Event.sleep (5 * Second)]
        ++ (attemptClosure serviceID serviceName serviceAddress servicePort tags 4 5 (oracle 4)).1
        ++ [Event.sleep (5 * Second)]
        ++ (attemptClosure serviceID serviceName serviceAddress servicePort tags 5 5 (oracle 5)).1
        ++ [Event.log (LogLine.completed serviceName)], Completion.returned ()) := by
  unfold registerServiceWithConsul
  simp only []
  rw [retryLoop]; simp only [attemptClosure_returns]
  rw [retryLoop]; simp only [attemptClosure_returns]
  rw [retryLoop]; simp only [attemptClosure_returns]
  rw [retryLoop]; simp only [attemptClosure_returns]
  rw [retryLoop]; simp only [attemptClosure_returns]
  rw [retryLoop]
  simp [recoverWith]

theorem attempts_append (s t : List Event) : attempts (s ++ t) = attempts s + attempts t := by
  simp [attempts]

theorem timeline_append (s t : List Event) : timeline (s ++ t) = timeline s ++ timeline t := by
  simp [timeline]

theorem schedule_append (s t : List Event) : schedule (s ++ t) = schedule s ++ schedule t := by
  simp [schedule]

theorem registrations_append (s t : List Event) :
    registrations (s ++ t) = registrations s ++ registrations t := by
  induction s with
  | nil => rfl
  | cons e s ih => cases e <;> simp [registrations, ih]

theorem sleeps_append (s t : List Event) : sleeps (s ++ t) = sleeps s ++ sleeps t := by
  induction s with
  | nil => rfl
  | cons e s ih => cases e <;> simp [sleeps, ih]

/-- One run of the closure is one attempt and no sleep, whatever the library
calls do. -/
theorem attemptClosure_timeline (serviceID serviceName serviceAddress : String)
    (servicePort : Int) (tags : List String) (attempt maxRetries : Nat) (oc : AttemptOutcome) :
    timeline (attemptClosure serviceID serviceName serviceAddress servicePort tags attempt
      maxRetries oc).1 = [Event.newClient (5 * Second)] := by
  rcases oc with ⟨c, r⟩
  cases c <;> cases r <;> simp [attemptClosure, attemptBody, recoverWith, timeline]

theorem attemptClosure_attempts (serviceID serviceName serviceAddress : String)
    (servicePort : Int) (tags : List String) (attempt maxRetries : Nat) (oc : AttemptOutcome) :
    attempts (attemptClosure serviceID serviceName serviceAddress servicePort tags attempt
      maxRetries oc).1 = 1 := by
  rcases oc with ⟨c, r⟩
  cases c <;> cases r <;> simp [attemptClosure, attemptBody, recoverWith, attempts]

theorem attemptClosure_sleeps (serviceID serviceName serviceAddress : String)
    (servicePort : Int) (tags : List String) (attempt maxRetries : Nat) (oc : AttemptOutcome) :
    sleeps (attemptClosure serviceID serviceName serviceAddress servicePort tags attempt
      maxRetries oc).1 = [] := by
  rcases oc with ⟨c, r⟩
  cases c <;> cases r <;> simp [attemptClosure, attemptBody, recoverWith, sleeps]

/-- A panicking attempt makes the same library calls as the attempt whose
panics are ordinary failures: only the log line differs. -/
theorem attemptClosure_schedule_asFailure (serviceID serviceName serviceAddress : String)
    (servicePort : Int) (tags : List String) (attempt maxRetries : Nat) (oc : AttemptOutcome) :
    schedule (attemptClosure serviceID serviceName serviceAddress servicePort tags attempt
      maxRetries oc).1 =
    schedule (attemptClosure serviceID serviceName serviceAddress servicePort tags attempt
      maxRetries oc.asFailure).1 := by
  rcases oc with ⟨c, r⟩
  cases c <;> cases r <;>
    simp [attemptClosure, attemptBody, recoverWith, schedule, AttemptOutcome.asFailure,
      CallResult.asFailure]

/-- Every registration handed to the registry by one run of the closure is the
value built from the arguments. -/
theorem attemptClosure_registrations (serviceID serviceName serviceAddress : String)
    (servicePort : Int) (tags : List String) (attempt maxRetries : Nat) (oc : AttemptOutcome)
    (r : AgentServiceRegistration)
    (h : r ∈ registrations (attemptClosure serviceID serviceName serviceAddress servicePort tags
      attempt maxRetries oc).1) :
    r = mkRegistration serviceID serviceName serviceAddress servicePort tags := by
  rcases oc with ⟨c, q⟩
  cases c <;> cases q <;>
    simp [attemptClosure, attemptBody, recoverWith, registrations] at h <;> exact h

theorem formatInt_eq_toString (i : Int) : String.mk (formatInt i) = toString i := by
  cases i with
  | ofNat n => simp [formatInt, toString, Int.repr, Nat.repr, List.asString]
  | negSucc n => simp [formatInt, toString, Int.repr, Nat.repr, List.asString]; rfl

/-- The health-check URL produced by the format string of line 128. -/
theorem Sprintf_health (serviceAddress : String) (servicePort : Int) :
    Sprintf "http://%s:%d/health" [FmtArg.str serviceAddress, FmtArg.int servicePort] =
      "http://" ++ serviceAddress ++ ":" ++ toString servicePort ++ "/health" := by
  rw [← formatInt_eq_toString]
  simp [Sprintf, sprintfAux]
  apply String.ext
  simp

theorem registerServiceWithConsul_returns (serviceID serviceName serviceAddress : String)
    (servicePort : Int) (tags : List String) (oracle : Nat → AttemptOutcome) :
    (registerServiceWithConsul serviceID serviceName serviceAddress servicePort tags
      oracle).2 = Completion.returned () := by
  rw [registerServiceWithConsul_unfold]

theorem registerServiceWithConsul_attempts (serviceID serviceName serviceAddress : String)
    (servicePort : Int) (tags : List String) (oracle : Nat → AttemptOutcome) :
    attempts (registerServiceWithConsul serviceID serviceName serviceAddress servicePort tags
      oracle).1 = 5 := by
  rw [registerServiceWithConsul_unfold]
  simp only [attempts_append, attemptClosure_attempts]
  simp [attempts]

theorem registerServiceWithConsul_sleeps (serviceID serviceName serviceAddress : String)
    (servicePort : Int) (tags : List String) (oracle : Nat → AttemptOutcome) :
    sleeps (registerServiceWithConsul serviceID serviceName serviceAddress servicePort tags
      oracle).1 = [5 * Second, 5 * Second, 5 * Second, 5 * Second] := by
  rw [registerServiceWithConsul_unfold]
  simp only [sleeps_append, attemptClosure_sleeps]
  simp [sleeps]

/-! ## The registrar: claims -/

/-- C1 (evaluation at the failing input).  With a registry client that rejects
the first two registrations and accepts the third, the registrar does not stop
at the third attempt: it makes five attempts, sleeps four times, hands the
registration to the registry five times and logs success for attempts 3, 4 and
5. -/
theorem registerServiceWithConsul_continues_after_success :
    (failTwiceThenSucceed 1).succeeds = false ∧
    (failTwiceThenSucceed 2).succeeds = false ∧
    (failTwiceThenSucceed 3).succeeds = true ∧
    attempts (registerServiceWithConsul "graphql-service" "GraphQL" "localhost" 4001
      ["graphql", "http"] failTwiceThenSucceed).1 = 5 ∧
    sleeps (registerServiceWithConsul "graphql-service" "GraphQL" "localhost" 4001
      ["graphql", "http"] failTwiceThenSucceed).1
      = [5 * Second, 5 * Second, 5 * Second, 5 * Second] ∧
    (registrations (registerServiceWithConsul "graphql-service" "GraphQL" "localhost" 4001
      ["graphql", "http"] failTwiceThenSucceed).1).length = 5 ∧
    ((registerServiceWithConsul "graphql-service" "GraphQL" "localhost" 4001
      ["graphql", "http"] failTwiceThenSucceed).1.filter
        fun e => e = Event.log (LogLine.registered "GraphQL")).length = 3 := by
  rw [registerServiceWithConsul_unfold]
  simp [failTwiceThenSucceed, AttemptOutcome.succeeds, attemptClosure, attemptBody, recoverWith,
    attempts, sleeps, registrations]

/-- C2.  When no attempt succeeds, the registrar makes exactly five attempts,
sleeps the fixed delay of five seconds after each of the first four and not
after the fifth, and returns normally. -/
theorem registerServiceWithConsul_always_failing (serviceID serviceName serviceAddress : String)
    (servicePort : Int) (tags : List String) (oracle : Nat → AttemptOutcome)
    (hfail : ∀ n, (oracle n).succeeds = false) :
    (registerServiceWithConsul serviceID serviceName serviceAddress servicePort tags
      oracle).2 = Completion.returned () ∧
    attempts (registerServiceWithConsul serviceID serviceName serviceAddress servicePort tags
      oracle).1 = 5 ∧
    sleeps (registerServiceWithConsul serviceID serviceName serviceAddress servicePort tags
      oracle).1 = [5 * Second, 5 * Second, 5 * Second, 5 * Second] ∧
    timeline (registerServiceWithConsul serviceID serviceName serviceAddress servicePort tags
      oracle).1 =
      [Event.newClient (5 * Second), Event.sleep (5 * Second),
       Event.newClient (5 * Second), Event.sleep (5 * Second),
       Event.newClient (5 * Second), Event.sleep (5 * Second),
       Event.newClient (5 * Second), Event.sleep (5 * Second),
       Event.newClient (5 * Second)] ∧
    Event.log (LogLine.registered serviceName) ∉
      (registerServiceWithConsul serviceID serviceName serviceAddress servicePort tags
        oracle).1 := by
  rw [registerServiceWithConsul_unfold]
  refine ⟨rfl, ?_, ?_, ?_, ?_⟩
  · simp only [attempts_append, attemptClosure_attempts]
    simp [attempts]
  · simp only [sleeps_append, attemptClosure_sleeps]
    simp [sleeps]
  · simp only [timeline_append, attemptClosure_timeline]
    simp [timeline]
  · have key : ∀ n, Event.log (LogLine.registered serviceName) ∉
        (attemptClosure serviceID serviceName serviceAddress servicePort tags n 5
          (oracle n)).1 := by
      intro n
      have h := hfail n
      rcases hoc : oracle n with ⟨c, r⟩
      rw [hoc] at h
      cases c <;> cases r <;>
        simp_all [attemptClosure, attemptBody, recoverWith, AttemptOutcome.succeeds]
    simp [key]

/-- Witness of C2 at the client that rejects every registration. -/
theorem registerServiceWithConsul_always_failing_witness :
    (∀ n, (alwaysFails n).succeeds = false) ∧
    attempts (registerServiceWithConsul "grpc-service" "gRPC" "localhost" 50051 ["grpc"]
      alwaysFails).1 = 5 :=
  ⟨fun _ => rfl,
   (registerServiceWithConsul_always_failing "grpc-service" "gRPC" "localhost" 50051 ["grpc"]
      alwaysFails (fun _ => rfl)).2.1⟩

/-- C5.  Whatever the library calls of the five attempts do, panics included,
the registrar returns normally, all five attempts are made with the four
sleeps between them, and the library calls and sleeps are exactly those of the
run in which every panic is an ordinary failure instead. -/
theorem registerServiceWithConsul_contains_panics (serviceID serviceName serviceAddress : String)
    (servicePort : Int) (tags : List String) (oracle : Nat → AttemptOutcome) :
    (registerServiceWithConsul serviceID serviceName serviceAddress servicePort tags
      oracle).2 = Completion.returned () ∧
    timeline (registerServiceWithConsul serviceID serviceName serviceAddress servicePort tags
      oracle).1 =
      [Event.newClient (5 * Second), Event.sleep (5 * Second),
       Event.newClient (5 * Second), Event.sleep (5 * Second),
       Event.newClient (5 * Second), Event.sleep (5 * Second),
       Event.newClient (5 * Second), Event.sleep (5 * Second),
       Event.newClient (5 * Second)] ∧
    schedule (registerServiceWithConsul serviceID serviceName serviceAddress servicePort tags
      oracle).1 =
    schedule (registerServiceWithConsul serviceID serviceName serviceAddress servicePort tags
      (fun n => (oracle n).asFailure)).1 := by
  rw [registerServiceWithConsul_unfold, registerServiceWithConsul_unfold]
  refine ⟨rfl, ?_, ?_⟩
  · simp only [timeline_append, attemptClosure_timeline]
    simp [timeline]
  · simp only [schedule_append]
    rw [attemptClosure_schedule_asFailure _ _ _ _ _ 1, attemptClosure_schedule_asFailure _ _ _ _ _ 2,
      attemptClosure_schedule_asFailure _ _ _ _ _ 3, attemptClosure_schedule_asFailure _ _ _ _ _ 4,
      attemptClosure_schedule_asFailure _ _ _ _ _ 5]

/-- C9.  Every registration the registrar hands to the registry, on whichever
attempt, carries the given ID, name, address, port and tags and the health
check with URL http://ADDRESS:PORT/health (the port in decimal), interval 10s,
timeout 5s and deregistration after 1m; so all attempts send the same payload. -/
theorem registerServiceWithConsul_payload (serviceID serviceName serviceAddress : String)
    (servicePort : Int) (tags : List String) (oracle : Nat → AttemptOutcome)
    (r : AgentServiceRegistration)
    (h : r ∈ registrations (registerServiceWithConsul serviceID serviceName serviceAddress
      servicePort tags oracle).1) :
    r = { ID := serviceID
          Name := serviceName
          Port := servicePort
          Address := serviceAddress
          Tags := tags
          Check :=
            { HTTP := "http://" ++ serviceAddress ++ ":" ++ toString servicePort ++ "/health"
              Interval := "10s"
              Timeout := "5s"
              DeregisterCriticalServiceAfter := "1m" } } := by
  rw [← Sprintf_health]
  rw [registerServiceWithConsul_unfold] at h
  simp only [registrations_append, List.mem_append, registrations, List.not_mem_nil,
    or_false] at h
  rcases h with (((h | h) | h) | h) | h <;>
    exact attemptClosure_registrations _ _ _ _ _ _ _ _ _ h

/-- Witness of C9: the third registration sent for the GraphQL service by the
client that fails twice and then succeeds. -/
theorem registerServiceWithConsul_payload_witness :
    mkRegistration "graphql-service" "GraphQL" "localhost" 4001 ["graphql", "http"] ∈
      registrations (registerServiceWithConsul "graphql-service" "GraphQL" "localhost" 4001
        ["graphql", "http"] failTwiceThenSucceed).1 ∧
    mkRegistration "graphql-service" "GraphQL" "localhost" 4001 ["graphql", "http"] =
      { ID := "graphql-service"
        Name := "GraphQL"
        Port := 4001
        Address := "localhost"
        Tags := ["graphql", "http"]
        Check :=
          { HTTP := "http://" ++ "localhost" ++ ":" ++ toString (4001 : Int) ++ "/health"
            Interval := "10s"
            Timeout := "5s"
            DeregisterCriticalServiceAfter := "1m" } } :=
  have hmem : mkRegistration "graphql-service" "GraphQL" "localhost" 4001 ["graphql", "http"] ∈
      registrations (registerServiceWithConsul "graphql-service" "GraphQL" "localhost" 4001
        ["graphql", "http"] failTwiceThenSucceed).1 := by
    rw [registerServiceWithConsul_unfold]
    simp [failTwiceThenSucceed, attemptClosure, attemptBody, recoverWith, registrations]
  ⟨hmem, registerServiceWithConsul_payload _ _ _ _ _ _ _ hmem⟩

/-! ## Lemmas on the configuration and the registration goroutine -/

/-- The program of the registration goroutine when both port strings convert. -/
theorem registrationProgram_of_ports (cfg : Config)
    (graphqlOracle grpcOracle : Nat → AttemptOutcome) (graphqlPort grpcPort : Int)
    (h1 : Atoi cfg.graphqlPort = Except.ok graphqlPort)
    (h2 : Atoi cfg.grpcPort = Except.ok grpcPort) :
    registrationProgram cfg graphqlOracle grpcOracle =
      (Event.mustAtoi cfg.graphqlPort ::
        (registerServiceWithConsul "graphql-service" "GraphQL" cfg.serviceAddress graphqlPort
          ["graphql", "http"] graphqlOracle).1 ++
        Event.mustAtoi cfg.grpcPort ::
        (registerServiceWithConsul "grpc-service" "gRPC" cfg.serviceAddress grpcPort
          ["grpc"] grpcOracle).1, Completion.returned ()) := by
  simp [registrationProgram, mustAtoi, h1, h2, registerServiceWithConsul_returns]

theorem Atoi_4001 : Atoi "4001" = Except.ok 4001 := by rfl

theorem Atoi_50051 : Atoi "50051" = Except.ok 50051 := by rfl

theorem Atoi_http :
    Atoi "http" = Except.error { Func := "Atoi", Num := "http", Err := "invalid syntax" } := by
  rfl

theorem getEnvOrDefault_eq (env : Env) (key defaultValue : String) :
    getEnvOrDefault env key defaultValue = (env key).getD defaultValue := by
  unfold getEnvOrDefault
  cases env key <;> rfl

/-- The program of the registration goroutine when GRAPHQL_PORT is the string
http and CONSUL_ENABLED is unset: the conversion, which panics. -/
theorem mainRegistration_http (graphqlOracle grpcOracle : Nat → AttemptOutcome) :
    mainRegistration (singleEnv "GRAPHQL_PORT" "http") graphqlOracle grpcOracle =
      ([], some ([Event.mustAtoi "http"], Completion.panicked
        (PanicValue.numError { Func := "Atoi", Num := "http", Err := "invalid syntax" }))) := by
  simp [mainRegistration, registrationProgram, loadConfig, getEnvOrDefault, singleEnv, mustAtoi,
    Atoi_http]

/-! ## Lemmas on the runners and `main` -/

theorem statesAfter_reachable (sc : Scenario) (n : Nat) (s : State)
    (h : s ∈ statesAfter sc n) : Reachable sc s := by
  induction n generalizing s with
  | zero =>
    simp [statesAfter] at h
    subst h
    exact Reachable.initial
  | succ n ih =>
    simp only [statesAfter, List.mem_flatMap] at h
    obtain ⟨p, hp, hs⟩ := h
    exact Reachable.step (ih p hp) hs

/-! ### What one move of each goroutine changes -/

theorem mem_reportAndFinish (err : Option RunnerError) (s u : State)
    (h : u ∈ reportAndFinish err s) :
    u = { s with errorChan := s.errorChan ++ err.toList, wg := s.wg - 1 } ∧
    (err.isSome = true → s.errorChan.length < 2) := by
  cases err with
  | none =>
    simp [reportAndFinish] at h
    simp [h]
  | some e =>
    simp only [reportAndFinish] at h
    split at h
    · simp at h
      simp [h]
      assumption
    · simp at h

theorem mem_graphqlMoves (sc : Scenario) (s t : State) (h : t ∈ graphqlMoves sc s) :
    (s.graphql = RunnerPc.entry ∧
      t = { s with graphql := RunnerPc.awaitStop, graphqlServe := ServePc.launched }) ∨
    (s.graphql = RunnerPc.awaitStop ∧ s.stopClosed = true ∧
      ∃ err, t = { s with graphql := RunnerPc.returned err }) ∨
    (∃ err, s.graphql = RunnerPc.returned err ∧
      (err.isSome = true → s.errorChan.length < 2) ∧
      t = { s with graphql := RunnerPc.done, errorChan := s.errorChan ++ err.toList,
                   wg := s.wg - 1 }) := by
  unfold graphqlMoves at h
  split at h
  next hg =>
    simp at h
    exact Or.inl ⟨hg, h⟩
  next hg =>
    split at h
    next hst =>
      simp at h
      exact Or.inr (Or.inl ⟨hg, hst, _, h⟩)
    next => simp at h
  next err hg =>
    simp only [List.mem_map] at h
    obtain ⟨u, hu, rfl⟩ := h
    obtain ⟨rfl, hroom⟩ := mem_reportAndFinish err s u hu
    exact Or.inr (Or.inr ⟨err, hg, hroom, rfl⟩)
  next => simp at h

theorem mem_grpcMoves (sc : Scenario) (s t : State) (h : t ∈ grpcMoves sc s) :
    (s.grpc = RunnerPc.entry ∧ sc.grpcBind = true ∧
      t = { s with grpc := RunnerPc.awaitStop, grpcServe := ServePc.launched }) ∨
    (s.grpc = RunnerPc.entry ∧ sc.grpcBind = false ∧
      t = { s with grpc := RunnerPc.returned (some RunnerError.listen) }) ∨
    (s.grpc = RunnerPc.awaitStop ∧ s.stopClosed = true ∧
      t = { s with grpc := RunnerPc.returned none }) ∨
    (∃ err, s.grpc = RunnerPc.returned err ∧
      (err.isSome = true → s.errorChan.length < 2) ∧
      t = { s with grpc := RunnerPc.done, errorChan := s.errorChan ++ err.toList,
                   wg := s.wg - 1 }) := by
  unfold grpcMoves at h
  split at h
  next hg =>
    split at h
    next hb =>
      simp at h
      exact Or.inl ⟨hg, hb, h⟩
    next hb =>
      simp at h
      exact Or.inr (Or.inl ⟨hg, by simpa using hb, h⟩)
  next hg =>
    split at h
    next hst =>
      simp at h
      exact Or.inr (Or.inr (Or.inl ⟨hg, hst, h⟩))
    next => simp at h
  next err hg =>
    simp only [List.mem_map] at h
    obtain ⟨u, hu, rfl⟩ := h
    obtain ⟨rfl, hroom⟩ := mem_reportAndFinish err s u hu
    exact Or.inr (Or.inr (Or.inr ⟨err, hg, hroom, rfl⟩))
  next => simp at h

theorem mem_graphqlServeMoves (sc : Scenario) (s t : State) (h : t ∈ graphqlServeMoves sc s) :
    ∃ p, t = { s with graphqlServe := p } ∧ p.rank < s.graphqlServe.rank ∧
      p ≠ ServePc.notLaunched := by
  unfold graphqlServeMoves at h
  split at h
  next => simp at h
  next hp =>
    split at h
    · simp at h; exact ⟨_, h, by simp [hp, ServePc.rank], by simp⟩
    · split at h <;> simp at h <;> exact ⟨_, h, by simp [hp, ServePc.rank], by simp⟩
  next hp =>
    simp only [List.mem_append] at h
    rcases h with h | h <;> split at h <;> simp at h <;>
      exact ⟨_, h, by simp [hp, ServePc.rank], by simp⟩
  next => simp at h

theorem mem_grpcServeMoves (sc : Scenario) (s t : State) (h : t ∈ grpcServeMoves sc s) :
    ∃ p, t = { s with grpcServe := p } ∧ p.rank < s.grpcServe.rank ∧
      s.grpcServe ≠ ServePc.notLaunched := by
  unfold grpcServeMoves at h
  split at h
  next => simp at h
  next hp =>
    split at h <;> simp at h <;> exact ⟨_, h, by simp [hp, ServePc.rank], by simp [hp]⟩
  next hp =>
    simp only [List.mem_append] at h
    rcases h with h | h <;> split at h <;> simp at h <;>
      exact ⟨_, h, by simp [hp, ServePc.rank], by simp [hp]⟩
  next => simp at h

theorem mem_mainMoves (sc : Scenario) (s t : State) (h : t ∈ mainMoves sc s) :
    (s.main = MainPc.running ∧ sc.signal = true ∧ t = { s with main := MainPc.shuttingDown }) ∨
    (s.main = MainPc.running ∧ ∃ e rest, s.errorChan = e :: rest ∧
      t = { s with main := MainPc.shuttingDown, errorChan := rest }) ∨
    (s.main = MainPc.shuttingDown ∧ t = { s with main := MainPc.waiting, stopClosed := true }) ∨
    (s.main = MainPc.waiting ∧ s.wg = 0 ∧ t = { s with main := MainPc.stopped }) := by
  unfold mainMoves at h
  split at h
  next hm =>
    simp only [List.mem_append] at h
    rcases h with h | h
    · split at h
      next hsig => simp at h; exact Or.inl ⟨hm, hsig, h⟩
      next => simp at h
    · split at h
      next => simp at h
      next e rest hec => simp at h; exact Or.inr (Or.inl ⟨hm, e, rest, hec, h⟩)
  next hm => simp at h; exact Or.inr (Or.inr (Or.inl ⟨hm, h⟩))
  next hm =>
    split at h
    next hwg => simp at h; exact Or.inr (Or.inr (Or.inr ⟨hm, hwg, h⟩))
    next => simp at h
  next => simp at h

theorem mem_registrationMoves (sc : Scenario) (s t : State)
    (h : t ∈ registrationMoves sc s) :
    (∃ program, sc.registration = some program ∧ s.registrationSteps < program.1.length ∧
      t = { s with registrationSteps := s.registrationSteps + 1 }) ∨
    (∃ program v, sc.registration = some program ∧ program.1.length ≤ s.registrationSteps ∧
      program.2 = Completion.panicked v ∧ t = { s with crashed := true }) := by
  unfold registrationMoves at h
  split at h
  next => simp at h
  next program hp =>
    split at h
    next hlt =>
      simp at h
      exact Or.inl ⟨program, hp, hlt, h⟩
    next hge =>
      split at h
      next v hv =>
        simp at h
        exact Or.inr ⟨program, v, hp, by omega, hv, h⟩
      next => simp at h

theorem mem_step (sc : Scenario) (s t : State) (h : t ∈ step sc s) :
    s.main ≠ MainPc.stopped ∧ s.crashed = false ∧
    (t ∈ graphqlMoves sc s ∨ t ∈ graphqlServeMoves sc s ∨ t ∈ grpcMoves sc s ∨
      t ∈ grpcServeMoves sc s ∨ t ∈ mainMoves sc s ∨ t ∈ registrationMoves sc s) := by
  unfold step at h
  split at h
  · simp at h
  · next hnot =>
    simp only [List.mem_append] at h
    refine ⟨fun hm => hnot (Or.inl hm), ?_, ?_⟩
    · cases hc : s.crashed
      · rfl
      · exact absurd (Or.inr hc) hnot
    · tauto
/-! ### Invariants -/

/-- Every move uses up rank, so every execution is finite. -/
theorem step_rank_lt (sc : Scenario) (s t : State) (ht : t ∈ step sc s) :
    t.rank sc < s.rank sc := by
  obtain ⟨_, hcr, h | h | h | h | h | h⟩ := mem_step sc s t ht
  · rcases mem_graphqlMoves sc s t h with ⟨hg, rfl⟩ | ⟨hg, _, err, rfl⟩ | ⟨err, hg, _, rfl⟩
    · have : s.graphqlServe.rank ≤ 3 := by cases s.graphqlServe <;> simp [ServePc.rank]
      simp only [State.rank, hg, RunnerPc.rank, ServePc.rank]
      omega
    · simp only [State.rank, hg, RunnerPc.rank]
      omega
    · simp only [State.rank, hg, RunnerPc.rank]
      omega
  · obtain ⟨p, rfl, hp, _⟩ := mem_graphqlServeMoves sc s t h
    simp only [State.rank]
    omega
  · rcases mem_grpcMoves sc s t h with
      ⟨hg, _, rfl⟩ | ⟨hg, _, rfl⟩ | ⟨hg, _, rfl⟩ | ⟨err, hg, _, rfl⟩
    · have : s.grpcServe.rank ≤ 3 := by cases s.grpcServe <;> simp [ServePc.rank]
      simp only [State.rank, hg, RunnerPc.rank, ServePc.rank]
      omega
    · simp only [State.rank, hg, RunnerPc.rank]
      omega
    · simp only [State.rank, hg, RunnerPc.rank]
      omega
    · simp only [State.rank, hg, RunnerPc.rank]
      omega
  · obtain ⟨p, rfl, hp, _⟩ := mem_grpcServeMoves sc s t h
    simp only [State.rank]
    omega
  · rcases mem_mainMoves sc s t h with
      ⟨hm, _, rfl⟩ | ⟨hm, _, _, _, rfl⟩ | ⟨hm, rfl⟩ | ⟨hm, _, rfl⟩ <;>
      simp only [State.rank, hm, MainPc.rank] <;> omega
  · rcases mem_registrationMoves sc s t h with
      ⟨program, hp, hlt, rfl⟩ | ⟨program, v, hp, _, _, rfl⟩
    · simp only [State.rank, hp]
      omega
    · simp only [State.rank, hcr]
      simp

/-- Without a signal and with the gRPC port bound, one move keeps the process
quiet, whatever the serve loops and the GraphQL bind do. -/
theorem Quiet_step (sc : Scenario) (hsig : sc.signal = false) (hbind : sc.grpcBind = true)
    (s t : State) (hq : Quiet s) (ht : t ∈ step sc s) : Quiet t := by
  obtain ⟨h1, h2, h3, h4, h5, h6⟩ := hq
  obtain ⟨_, _, h | h | h | h | h | h⟩ := mem_step sc s t ht
  · rcases mem_graphqlMoves sc s t h with ⟨hg, rfl⟩ | ⟨hg, hst, err, rfl⟩ | ⟨err, hg, _, rfl⟩
    · exact ⟨h1, h2, h3, h4, Or.inr rfl, h6⟩
    · rw [h2] at hst
      cases hst
    · rcases h5 with h5 | h5 <;> simp [hg] at h5
  · obtain ⟨p, rfl, _, _⟩ := mem_graphqlServeMoves sc s t h
    exact ⟨h1, h2, h3, h4, h5, h6⟩
  · rcases mem_grpcMoves sc s t h with
      ⟨hg, _, rfl⟩ | ⟨hg, hb, rfl⟩ | ⟨hg, hst, rfl⟩ | ⟨err, hg, _, rfl⟩
    · exact ⟨h1, h2, h3, h4, h5, Or.inr rfl⟩
    · rw [hbind] at hb
      cases hb
    · rw [h2] at hst
      cases hst
    · rcases h6 with h6 | h6 <;> simp [hg] at h6
  · obtain ⟨p, rfl, _, _⟩ := mem_grpcServeMoves sc s t h
    exact ⟨h1, h2, h3, h4, h5, h6⟩
  · rcases mem_mainMoves sc s t h with
      ⟨_, hs, _⟩ | ⟨_, e, rest, hec, _⟩ | ⟨hm, _⟩ | ⟨hm, _, _⟩
    · rw [hsig] at hs
      cases hs
    · rw [h3] at hec
      cases hec
    · rw [h1] at hm
      cases hm
    · rw [h1] at hm
      cases hm
  · rcases mem_registrationMoves sc s t h with ⟨_, _, _, rfl⟩ | ⟨_, _, _, _, _, rfl⟩ <;>
      exact ⟨h1, h2, h3, h4, h5, h6⟩

/-- Without a signal and with the gRPC port bound, every reachable state is
quiet. -/
theorem Quiet_of_reachable (sc : Scenario) (hsig : sc.signal = false)
    (hbind : sc.grpcBind = true) (s : State) (h : Reachable sc s) : Quiet s := by
  induction h with
  | initial => exact ⟨rfl, rfl, rfl, rfl, Or.inl rfl, Or.inl rfl⟩
  | step _ ht ih => exact Quiet_step sc hsig hbind _ _ ih ht

/-- One move keeps the process coordinated. -/
theorem Coordinated_step (sc : Scenario) (s t : State) (hc : Coordinated sc s)
    (ht : t ∈ step sc s) : Coordinated sc t := by
  obtain ⟨hwg, hroom, hstop, hzero, hfail⟩ := hc
  obtain ⟨hrun, _, h | h | h | h | h | h⟩ := mem_step sc s t ht
  · rcases mem_graphqlMoves sc s t h with ⟨hg, rfl⟩ | ⟨hg, _, err, rfl⟩ | ⟨err, hg, _, rfl⟩
    · refine ⟨?_, ?_, hstop, hzero, ?_⟩
      · simpa [hg, RunnerPc.undone] using hwg
      · simpa [hg, RunnerPc.undone] using hroom
      · simpa using hfail
    · refine ⟨?_, ?_, hstop, hzero, ?_⟩
      · simpa [hg, RunnerPc.undone] using hwg
      · simpa [hg, RunnerPc.undone] using hroom
      · simpa using hfail
    · refine ⟨?_, ?_, hstop, ?_, ?_⟩
      · simp [hg, RunnerPc.undone] at hwg ⊢
        omega
      · cases err <;> simp [hg, RunnerPc.undone] at hroom ⊢ <;> omega
      · intro hm
        exact absurd hm hrun
      · intro hb
        obtain ⟨h1, h2, h3⟩ := hfail hb
        refine ⟨h1, h2, ?_⟩
        intro hm hd
        have := h3 hm hd
        simp [this]
  · obtain ⟨p, rfl, _, _⟩ := mem_graphqlServeMoves sc s t h
    exact ⟨hwg, hroom, hstop, hzero, hfail⟩
  · rcases mem_grpcMoves sc s t h with
      ⟨hg, hb, rfl⟩ | ⟨hg, hb, rfl⟩ | ⟨hg, _, rfl⟩ | ⟨err, hg, _, rfl⟩
    · refine ⟨?_, ?_, hstop, hzero, ?_⟩
      · simpa [hg, RunnerPc.undone] using hwg
      · simpa [hg, RunnerPc.undone] using hroom
      · simp [hb]
    · refine ⟨?_, ?_, hstop, hzero, ?_⟩
      · simpa [hg, RunnerPc.undone] using hwg
      · simpa [hg, RunnerPc.undone] using hroom
      · intro hb2
        exact ⟨(hfail hb2).1, by simp, by simp⟩
    · refine ⟨?_, ?_, hstop, hzero, ?_⟩
      · simpa [hg, RunnerPc.undone] using hwg
      · simpa [hg, RunnerPc.undone] using hroom
      · intro hb2
        have := (hfail hb2).2.1
        simp [hg] at this
    · refine ⟨?_, ?_, hstop, ?_, ?_⟩
      · simp [hg, RunnerPc.undone] at hwg ⊢
        omega
      · cases err <;> simp [hg, RunnerPc.undone] at hroom ⊢ <;> omega
      · intro hm
        exact absurd hm hrun
      · intro hb
        obtain ⟨h1, h2, _⟩ := hfail hb
        refine ⟨h1, by simp, ?_⟩
        intro _ _
        have herr : err = some RunnerError.listen := by simpa [hg] using h2
        simp [herr]
  · obtain ⟨p, rfl, _, hne⟩ := mem_grpcServeMoves sc s t h
    refine ⟨hwg, hroom, hstop, hzero, ?_⟩
    intro hb
    exact absurd (hfail hb).1 hne
  · rcases mem_mainMoves sc s t h with
      ⟨hm, _, rfl⟩ | ⟨hm, e, rest, hec, rfl⟩ | ⟨hm, rfl⟩ | ⟨hm, hz, rfl⟩
    · refine ⟨hwg, hroom, by simp, by simp, ?_⟩
      intro hb
      exact ⟨(hfail hb).1, (hfail hb).2.1, by simp⟩
    · refine ⟨hwg, ?_, by simp, by simp, ?_⟩
      · simp [hec] at hroom ⊢
        omega
      · intro hb
        exact ⟨(hfail hb).1, (hfail hb).2.1, by simp⟩
    · refine ⟨hwg, hroom, by simp, by simp, ?_⟩
      intro hb
      exact ⟨(hfail hb).1, (hfail hb).2.1, by simp⟩
    · refine ⟨hwg, hroom, ?_, ?_, ?_⟩
      · intro _
        exact hstop (Or.inl hm)
      · intro _
        exact hz
      · intro hb
        exact ⟨(hfail hb).1, (hfail hb).2.1, by simp⟩
  · rcases mem_registrationMoves sc s t h with ⟨_, _, _, rfl⟩ | ⟨_, _, _, _, _, rfl⟩ <;>
      exact ⟨hwg, hroom, hstop, hzero, hfail⟩

/-- Every reachable state is coordinated. -/
theorem Coordinated_of_reachable (sc : Scenario) (s : State) (h : Reachable sc s) :
    Coordinated sc s := by
  induction h with
  | initial =>
    refine ⟨rfl, by simp [State.initial, RunnerPc.undone], by simp [State.initial],
      by simp [State.initial], ?_⟩
    intro _
    simp [State.initial]
  | step _ ht ih => exact Coordinated_step sc _ _ ih ht

theorem graphqlMoves_eq_nil (sc : Scenario) (s : State) (h : graphqlMoves sc s = [])
    (hroom : s.errorChan.length + s.graphql.undone + s.grpc.undone ≤ 2) :
    (s.graphql = RunnerPc.awaitStop ∧ s.stopClosed = false) ∨ s.graphql = RunnerPc.done := by
  unfold graphqlMoves at h
  split at h
  next => simp at h
  next hg => exact Or.inl ⟨hg, by simpa using h⟩
  next err hg =>
    cases err with
    | none => simp [reportAndFinish] at h
    | some e =>
      simp [reportAndFinish] at h
      simp [hg, RunnerPc.undone] at hroom
      omega
  next hg => exact Or.inr hg

theorem grpcMoves_eq_nil (sc : Scenario) (s : State) (h : grpcMoves sc s = [])
    (hroom : s.errorChan.length + s.graphql.undone + s.grpc.undone ≤ 2) :
    (s.grpc = RunnerPc.awaitStop ∧ s.stopClosed = false) ∨ s.grpc = RunnerPc.done := by
  unfold grpcMoves at h
  split at h
  next => split at h <;> simp at h
  next hg => exact Or.inl ⟨hg, by simpa using h⟩
  next err hg =>
    cases err with
    | none => simp [reportAndFinish] at h
    | some e =>
      simp [reportAndFinish] at h
      simp [hg, RunnerPc.undone] at hroom
      omega
  next hg => exact Or.inr hg

/-- When a signal arrives or the gRPC port cannot be bound, an execution that
the registration goroutine does not crash can only come to rest with
everything stopped: `main` has returned, `stopChan` is closed and both runner
goroutines have finished.  With `step_rank_lt` this is the shutdown path the
gRPC runner takes on a bind failure. -/
theorem rest_is_stopped (sc : Scenario) (s : State)
    (hcause : sc.signal = true ∨ sc.grpcBind = false) (hr : Reachable sc s)
    (hrest : step sc s = []) (hlive : s.crashed = false) :
    s.main = MainPc.stopped ∧ s.stopClosed = true ∧ s.graphql = RunnerPc.done ∧
    s.grpc = RunnerPc.done ∧ s.wg = 0 := by
  obtain ⟨hwg, hroom, hstop, hzero, hfail⟩ := Coordinated_of_reachable sc s hr
  by_cases hm : s.main = MainPc.stopped
  · have hz := hzero hm
    refine ⟨hm, hstop (Or.inr hm), ?_, ?_, hz⟩
    · cases hg : s.graphql <;> first | rfl | (simp [hg, RunnerPc.undone] at hwg; omega)
    · cases hg : s.grpc <;> first | rfl | (simp [hg, RunnerPc.undone] at hwg; omega)
  · exfalso
    have hnil : graphqlMoves sc s = [] ∧ graphqlServeMoves sc s = [] ∧ grpcMoves sc s = [] ∧
        grpcServeMoves sc s = [] ∧ mainMoves sc s = [] ∧ registrationMoves sc s = [] := by
      simpa [step, hm, hlive, and_assoc] using hrest
    obtain ⟨hG, _, hR, _, hM, _⟩ := hnil
    have hG2 := graphqlMoves_eq_nil sc s hG hroom
    have hR2 := grpcMoves_eq_nil sc s hR hroom
    unfold mainMoves at hM
    split at hM
    next hmain =>
      simp only [List.append_eq_nil] at hM
      obtain ⟨hsig, hec⟩ := hM
      have hec2 : s.errorChan = [] := by
        cases hc : s.errorChan with
        | nil => rfl
        | cons e rest => simp [hc] at hec
      rcases hcause with hs | hb
      · simp [hs] at hsig
      · obtain ⟨_, h2, h3⟩ := hfail hb
        rcases hR2 with ⟨hg, _⟩ | hg
        · simp [hg] at h2
        · exact h3 hmain hg hec2
    next => simp at hM
    next hmain =>
      have hst := hstop (Or.inl hmain)
      have hwg0 : s.wg ≠ 0 := by
        intro h0
        simp [h0] at hM
      rcases hG2 with ⟨_, hg⟩ | hg
      · simp [hst] at hg
      · rcases hR2 with ⟨_, hr2⟩ | hr2
        · simp [hst] at hr2
        · simp [hg, hr2, RunnerPc.undone] at hwg
          exact hwg0 hwg
    next hmain => exact hm hmain

/-- When the gRPC port cannot be bound the gRPC runner never serves and never
waits for the stop signal: it is about to run, has returned the listen error,
or has finished. -/
theorem grpc_bind_failure_returns_at_once (sc : Scenario) (s : State)
    (hbind : sc.grpcBind = false) (hr : Reachable sc s) :
    s.grpcServe = ServePc.notLaunched ∧
    (s.grpc = RunnerPc.entry ∨ s.grpc = RunnerPc.returned (some RunnerError.listen) ∨
      s.grpc = RunnerPc.done) := by
  obtain ⟨_, _, _, _, hfail⟩ := Coordinated_of_reachable sc s hr
  exact ⟨(hfail hbind).1, (hfail hbind).2.1⟩


/-- When both ports bind and no signal arrives, a serve goroutine that has
exited with its error log line has had a serve failure: the bind succeeded and
the server was not shut down. -/
theorem logged_exit_is_serve_failure (sc : Scenario) (hsig : sc.signal = false)
    (hgraphql : sc.graphqlBind = true) (hgrpc : sc.grpcBind = true) (s : State)
    (h : Reachable sc s) :
    (s.graphqlServe = ServePc.exited true → sc.graphqlServeFails = true) ∧
    (s.grpcServe = ServePc.exited true → sc.grpcServeFails = true) := by
  induction h with
  | initial => simp [State.initial]
  | @step s t hs ht ih =>
    obtain ⟨_, _, _, _, h5, h6⟩ := Quiet_of_reachable sc hsig hgrpc s hs
    have hg : s.graphql.hasReturned = false := by
      rcases h5 with h5 | h5 <;> simp [h5, RunnerPc.hasReturned]
    have hr : s.grpc.hasReturned = false := by
      rcases h6 with h6 | h6 <;> simp [h6, RunnerPc.hasReturned]
    obtain ⟨_, _, h | h | h | h | h | h⟩ := mem_step sc s t ht
    · rcases mem_graphqlMoves sc s t h with ⟨_, rfl⟩ | ⟨_, _, err, rfl⟩ | ⟨err, _, _, rfl⟩
      · exact ⟨by simp, ih.2⟩
      · exact ih
      · exact ih
    · refine ⟨?_, ?_⟩
      · intro hex
        unfold graphqlServeMoves at h
        split at h
        · simp at h
        · simp [hg, hgraphql] at h
          subst h
          simp at hex
        · simp [hg] at h
          exact h.1
        · simp at h
      · obtain ⟨p, rfl, _, _⟩ := mem_graphqlServeMoves sc s t h
        exact ih.2
    · rcases mem_grpcMoves sc s t h with
        ⟨_, _, rfl⟩ | ⟨_, _, rfl⟩ | ⟨_, _, rfl⟩ | ⟨err, _, _, rfl⟩
      · exact ⟨ih.1, by simp⟩
      · exact ih
      · exact ih
      · exact ih
    · refine ⟨?_, ?_⟩
      · obtain ⟨p, rfl, _, _⟩ := mem_grpcServeMoves sc s t h
        exact ih.1
      · intro hex
        unfold grpcServeMoves at h
        split at h
        · simp at h
        · simp [hr] at h
          subst h
          simp at hex
        · simp [hr] at h
          exact h.1
        · simp at h
    · rcases mem_mainMoves sc s t h with
        ⟨_, _, rfl⟩ | ⟨_, _, _, _, rfl⟩ | ⟨_, rfl⟩ | ⟨_, _, rfl⟩ <;> exact ih
    · rcases mem_registrationMoves sc s t h with ⟨_, _, _, rfl⟩ | ⟨_, _, _, _, _, rfl⟩ <;>
        exact ih

/-! ### The registration goroutine inside the process -/

theorem mem_step_of_registrationMoves (sc : Scenario) (s t : State)
    (hm : s.main ≠ MainPc.stopped) (hc : s.crashed = false)
    (h : t ∈ registrationMoves sc s) : t ∈ step sc s := by
  unfold step
  simp only [hm, hc, false_or, Bool.false_eq_true, if_false, List.mem_append]
  exact Or.inr h

/-- While `main` waits in its `select`, the registration goroutine can perform
any number of steps of its program. -/
theorem registration_advances (sc : Scenario) (program : List Event × Completion Unit)
    (hp : sc.registration = some program) (n : Nat) (hn : n ≤ program.1.length) :
    Reachable sc { State.initial with registrationSteps := n } := by
  induction n with
  | zero => exact Reachable.initial
  | succ n ih =>
    refine Reachable.step (ih (by omega)) ?_
    apply mem_step_of_registrationMoves
    · simp [State.initial]
    · rfl
    · have hlt : n < program.1.length := by omega
      simp [registrationMoves, hp, hlt]

/-- A program that ends in a panic crashes the process once all its steps are
performed, if `main` is still waiting in its `select`. -/
theorem registration_crashes (sc : Scenario) (program : List Event × Completion Unit)
    (v : PanicValue) (hp : sc.registration = some program)
    (hv : program.2 = Completion.panicked v) :
    Reachable sc { State.initial with registrationSteps := program.1.length, crashed := true } := by
  refine Reachable.step (registration_advances sc program hp program.1.length (le_refl _)) ?_
  apply mem_step_of_registrationMoves
  · simp [State.initial]
  · rfl
  · simp [registrationMoves, hp, hv]

/-- When the program of the registration goroutine ends in a panic, no signal
arrives and the gRPC port binds, an execution can only come to rest crashed. -/
theorem rest_is_crashed (sc : Scenario) (program : List Event × Completion Unit)
    (v : PanicValue) (hp : sc.registration = some program)
    (hv : program.2 = Completion.panicked v) (hsig : sc.signal = false)
    (hbind : sc.grpcBind = true) (s : State) (hr : Reachable sc s) (hrest : step sc s = []) :
    s.crashed = true := by
  obtain ⟨hm, _, _, _, _, _⟩ := Quiet_of_reachable sc hsig hbind s hr
  cases hc : s.crashed with
  | true => rfl
  | false =>
    exfalso
    have hreg : registrationMoves sc s = [] := by
      have := hrest
      simp [step, hm, hc] at this
      exact this.2.2.2.2.2
    unfold registrationMoves at hreg
    simp only [hp, hv] at hreg
    split at hreg <;> simp at hreg
/-! ## The runners and `main`: claims -/

/-- C3 (evaluation at the failing input).  When the GraphQL port cannot be
bound and no signal arrives, the bind error is logged by the serve goroutine
and never reaches `main`: every reachable state is quiet (the GraphQL runner
has not returned, `errorChan` is empty, `stopChan` is open), and the execution
comes to rest, with no move left, in a state where both runner functions are
blocked on `stopChan` and `main` is blocked in its `select`. -/
theorem graphql_bind_failure_is_not_reported :
    Reachable graphqlBindFailure restAfterGraphqlBindFailure ∧
    restAfterGraphqlBindFailure.graphqlServe = ServePc.exited true ∧
    restAfterGraphqlBindFailure.graphql = RunnerPc.awaitStop ∧
    restAfterGraphqlBindFailure.main = MainPc.running ∧
    step graphqlBindFailure restAfterGraphqlBindFailure = [] ∧
    ∀ s, Reachable graphqlBindFailure s → Quiet s := by
  refine ⟨?_, rfl, rfl, rfl, ?_, ?_⟩
  · exact statesAfter_reachable _ 4 _ (by decide)
  · decide
  · exact fun s h => Quiet_of_reachable _ rfl rfl s h

/-- C4 (counterexample).  Both ports bind, the gRPC serve loop fails and no
signal arrives: the execution reaches a state in which the serve error is
logged, `errorChan` is empty, `stopChan` is open, `main` is still in its
`select`, the GraphQL server is still serving, and no goroutine can move.  The
same holds when it is the GraphQL serve loop that fails. -/
theorem serve_failure_is_not_reported :
    (Reachable grpcServeFailure restAfterGrpcServeFailure ∧
      restAfterGrpcServeFailure.grpcServe = ServePc.exited true ∧
      restAfterGrpcServeFailure.errorChan = [] ∧
      restAfterGrpcServeFailure.stopClosed = false ∧
      restAfterGrpcServeFailure.main = MainPc.running ∧
      restAfterGrpcServeFailure.graphqlServe = ServePc.serving ∧
      step grpcServeFailure restAfterGrpcServeFailure = []) ∧
    (Reachable graphqlServeFailure restAfterGraphqlServeFailure ∧
      restAfterGraphqlServeFailure.graphqlServe = ServePc.exited true ∧
      restAfterGraphqlServeFailure.errorChan = [] ∧
      restAfterGraphqlServeFailure.stopClosed = false ∧
      restAfterGraphqlServeFailure.main = MainPc.running ∧
      restAfterGraphqlServeFailure.grpcServe = ServePc.serving ∧
      step graphqlServeFailure restAfterGraphqlServeFailure = []) := by
  refine ⟨⟨?_, rfl, rfl, rfl, rfl, rfl, ?_⟩, ⟨?_, rfl, rfl, rfl, rfl, rfl, ?_⟩⟩
  · exact statesAfter_reachable _ 5 _ (by decide)
  · decide
  · exact statesAfter_reachable _ 5 _ (by decide)
  · decide

/-- C4 (amended).  When both ports bind and no signal arrives, then whatever
the serve loops do, failures included, nothing is delivered to `errorChan`,
`stopChan` stays open and both runner functions stay at or before their
receive from `stopChan`: a serve failure is only logged. -/
theorem serve_failure_is_only_logged (sc : Scenario) (s : State)
    (hsig : sc.signal = false) (hgraphql : sc.graphqlBind = true)
    (hgrpc : sc.grpcBind = true) (h : Reachable sc s) :
    s.errorChan = [] ∧ s.stopClosed = false ∧
    (s.graphql = RunnerPc.entry ∨ s.graphql = RunnerPc.awaitStop) ∧
    (s.grpc = RunnerPc.entry ∨ s.grpc = RunnerPc.awaitStop) ∧
    (s.graphqlServe = ServePc.exited true → sc.graphqlServeFails = true) ∧
    (s.grpcServe = ServePc.exited true → sc.grpcServeFails = true) := by
  obtain ⟨_, h2, h3, _, h5, h6⟩ := Quiet_of_reachable sc hsig hgrpc s h
  obtain ⟨hs1, hs2⟩ := logged_exit_is_serve_failure sc hsig hgraphql hgrpc s h
  exact ⟨h3, h2, h5, h6, hs1, hs2⟩

/-- Witness of C4 (amended): the state reached once the gRPC serve loop has
failed. -/
theorem serve_failure_is_only_logged_witness :
    grpcServeFailure.signal = false ∧ grpcServeFailure.graphqlBind = true ∧
    grpcServeFailure.grpcBind = true ∧
    Reachable grpcServeFailure restAfterGrpcServeFailure ∧
    restAfterGrpcServeFailure.errorChan = [] :=
  have hr : Reachable grpcServeFailure restAfterGrpcServeFailure :=
    statesAfter_reachable _ 5 _ (by decide)
  ⟨rfl, rfl, rfl, hr,
   (serve_failure_is_only_logged grpcServeFailure restAfterGrpcServeFailure rfl rfl rfl hr).1⟩


/-! ## Configuration and the registration goroutine: claims -/

/-- Each recognised option resolves to the value of its variable when the
variable is set and to its default when it is unset; the registration
goroutine is launched exactly when the resolved CONSUL_ENABLED is the string
true, and for every other value `main` logs that registration is disabled and
no registration step is ever made. -/
theorem config_resolution (env : Env) (graphqlOracle grpcOracle : Nat → AttemptOutcome) :
    (∀ key defaultValue value, env key = some value →
      getEnvOrDefault env key defaultValue = value) ∧
    (∀ key defaultValue, env key = none → getEnvOrDefault env key defaultValue = defaultValue) ∧
    (loadConfig env).graphqlPort = (env "GRAPHQL_PORT").getD "4001" ∧
    (loadConfig env).grpcPort = (env "GRPC_PORT").getD "50051" ∧
    (loadConfig env).serviceAddress = (env "SERVICE_ADDRESS").getD "localhost" ∧
    ((loadConfig env).consulEnabled = true ↔ (env "CONSUL_ENABLED").getD "true" = "true") ∧
    ((mainRegistration env graphqlOracle grpcOracle).2.isSome = true ↔
      (env "CONSUL_ENABLED").getD "true" = "true") ∧
    ((env "CONSUL_ENABLED").getD "true" ≠ "true" →
      mainRegistration env graphqlOracle grpcOracle =
        ([Event.log LogLine.registrationDisabled], none) ∧
      ∀ (sc : Scenario) (s : State),
        sc.registration = (mainRegistration env graphqlOracle grpcOracle).2 →
        s.registrationTrace sc = []) := by
  have hget := getEnvOrDefault_eq env
  refine ⟨?_, ?_, hget _ _, hget _ _, hget _ _, ?_, ?_, ?_⟩
  · intro key defaultValue value h
    simp [hget, h]
  · intro key defaultValue h
    simp [hget, h]
  · simp [loadConfig, hget]
  · by_cases h : (env "CONSUL_ENABLED").getD "true" = "true" <;>
      simp [mainRegistration, loadConfig, hget, h]
  · intro h
    have hmain : mainRegistration env graphqlOracle grpcOracle =
        ([Event.log LogLine.registrationDisabled], none) := by
      simp [mainRegistration, loadConfig, hget, h]
    refine ⟨hmain, ?_⟩
    intro sc s hsc
    rw [hmain] at hsc
    simp [State.registrationTrace, hsc]

/-- C8 (evaluation at the failing input).  With GRAPHQL_PORT set to the string
http and CONSUL_ENABLED unset, CONSUL_ENABLED resolves to its default true and
registration is enabled, yet no registration attempt is ever made: the program
of the registration goroutine is the conversion of the port alone, so in every
state the goroutine has created no client and handed nothing to the registry,
and once the conversion is made the process crashes. -/
theorem registration_enabled_but_never_attempted :
    getEnvOrDefault (singleEnv "GRAPHQL_PORT" "http") "CONSUL_ENABLED" "true" = "true" ∧
    (loadConfig (singleEnv "GRAPHQL_PORT" "http")).consulEnabled = true ∧
    ∀ (graphqlOracle grpcOracle : Nat → AttemptOutcome) (sc : Scenario),
      sc.registration =
        (mainRegistration (singleEnv "GRAPHQL_PORT" "http") graphqlOracle grpcOracle).2 →
      (∀ s : State, attempts (s.registrationTrace sc) = 0 ∧
        registrations (s.registrationTrace sc) = []) ∧
      Reachable sc { State.initial with registrationSteps := 1, crashed := true } := by
  refine ⟨by simp [getEnvOrDefault, singleEnv], by simp [loadConfig, getEnvOrDefault, singleEnv],
    ?_⟩
  intro graphqlOracle grpcOracle sc hsc
  rw [mainRegistration_http] at hsc
  refine ⟨?_, registration_crashes sc _ _ hsc rfl⟩
  intro s
  simp only [State.registrationTrace, hsc]
  cases s.registrationSteps <;> simp [attempts, registrations]

/-- C10 (evaluation at the failing input).  With registration enabled and
GRAPHQL_PORT set to a service name, the registration goroutine converts the
port with `mustAtoi` before it enters `registerServiceWithConsul`; the
conversion panics with the error of `strconv.Atoi`, nothing recovers it, and
the panic terminates the process.  When no signal arrives and the gRPC port
binds, every execution ends that way, with `main` in its `select` and neither
runner stopped. -/
theorem registration_goroutine_panics_on_non_numeric_port :
    (loadConfig (singleEnv "GRAPHQL_PORT" "http")).consulEnabled = true ∧
    mustAtoi "http" = Completion.panicked
      (PanicValue.numError { Func := "Atoi", Num := "http", Err := "invalid syntax" }) ∧
    ∀ (graphqlOracle grpcOracle : Nat → AttemptOutcome) (sc : Scenario),
      sc.registration =
        (mainRegistration (singleEnv "GRAPHQL_PORT" "http") graphqlOracle grpcOracle).2 →
      sc.registration = some ([Event.mustAtoi "http"], Completion.panicked
        (PanicValue.numError { Func := "Atoi", Num := "http", Err := "invalid syntax" })) ∧
      Reachable sc { State.initial with registrationSteps := 1, crashed := true } ∧
      step sc { State.initial with registrationSteps := 1, crashed := true } = [] ∧
      (sc.signal = false → sc.grpcBind = true →
        ∀ s, Reachable sc s → step sc s = [] → s.crashed = true ∧ Quiet s) := by
  refine ⟨by simp [loadConfig, getEnvOrDefault, singleEnv], by simp [mustAtoi, Atoi_http], ?_⟩
  intro graphqlOracle grpcOracle sc hsc
  rw [mainRegistration_http] at hsc
  refine ⟨hsc, registration_crashes sc _ _ hsc rfl, by simp [step], ?_⟩
  intro hsig hbind s hr hrest
  exact ⟨rest_is_crashed sc _ _ hsc rfl hsig hbind s hr hrest,
    Quiet_of_reachable sc hsig hbind s hr⟩

/-- C7 (counterexample).  With the default configuration, a registry that
rejects every registration of graphql-service and accepts those of
grpc-service: the steps of the registration goroutine that precede its first
registration of grpc-service contain the five registrations of
graphql-service and its four sleeps of five seconds, and the execution in
which the goroutine gets that far exists.  The first attempt for grpc-service
waits for every attempt and retry delay of graphql-service. -/
theorem grpc_registration_waits_for_graphql :
    (mainRegistration emptyEnv alwaysFails alwaysSucceeds).2 =
      some (registrationProgram (loadConfig emptyEnv) alwaysFails alwaysSucceeds) ∧
    (registrationProgram (loadConfig emptyEnv) alwaysFails alwaysSucceeds).1.any
      (isRegistrationOf "grpc-service") = true ∧
    ((registrations
      ((registrationProgram (loadConfig emptyEnv) alwaysFails alwaysSucceeds).1.takeWhile
        fun e => !isRegistrationOf "grpc-service" e)).map fun r => r.ID) =
      ["graphql-service", "graphql-service", "graphql-service", "graphql-service",
       "graphql-service"] ∧
    sleeps
      ((registrationProgram (loadConfig emptyEnv) alwaysFails alwaysSucceeds).1.takeWhile
        fun e => !isRegistrationOf "grpc-service" e) =
      [5 * Second, 5 * Second, 5 * Second, 5 * Second] ∧
    ∀ sc : Scenario,
      sc.registration = (mainRegistration emptyEnv alwaysFails alwaysSucceeds).2 →
      Reachable sc { State.initial with registrationSteps := 24 } ∧
      (registrations (State.registrationTrace sc
        { State.initial with registrationSteps := 24 })).map (fun r => r.ID) =
        ["graphql-service", "graphql-service", "graphql-service", "graphql-service",
         "graphql-service", "grpc-service"] := by
  have hcfg : loadConfig emptyEnv =
      { graphqlPort := "4001", grpcPort := "50051", serviceAddress := "localhost",
        consulEnabled := true } := by
    simp [loadConfig, getEnvOrDefault, emptyEnv]
  have hmain : (mainRegistration emptyEnv alwaysFails alwaysSucceeds).2 =
      some (registrationProgram (loadConfig emptyEnv) alwaysFails alwaysSucceeds) := by
    simp [mainRegistration, hcfg]
  have hprog := registrationProgram_of_ports
    { graphqlPort := "4001", grpcPort := "50051", serviceAddress := "localhost",
      consulEnabled := true } alwaysFails alwaysSucceeds 4001 50051 Atoi_4001 Atoi_50051
  rw [registerServiceWithConsul_unfold, registerServiceWithConsul_unfold] at hprog
  simp only [alwaysFails, alwaysSucceeds, attemptClosure, attemptBody, recoverWith,
    List.cons_append, List.nil_append, List.append_assoc] at hprog
  refine ⟨hmain, ?_, ?_, ?_, ?_⟩
  · rw [hcfg, hprog]
    simp [isRegistrationOf, mkRegistration]
  · rw [hcfg, hprog]
    simp [isRegistrationOf, mkRegistration, List.takeWhile, registrations]
  · rw [hcfg, hprog]
    simp [isRegistrationOf, mkRegistration, List.takeWhile, sleeps]
  · intro sc hsc
    rw [hmain, hcfg] at hsc
    refine ⟨registration_advances sc _ hsc 24 ?_, ?_⟩
    · rw [hprog]
      simp
    · simp only [State.registrationTrace, hsc, hprog]
      simp [List.take, registrations, mkRegistration]

/-- C7 (amended).  When both port strings convert, the registration goroutine
runs the two retry loops one after the other: the steps it has performed are
always an initial part of the conversion of GRAPHQL_PORT, the whole retry loop
for graphql-service, the conversion of GRPC_PORT and the retry loop for
grpc-service, in this order.  So once it has gone past the conversion of
GRPC_PORT the whole loop for graphql-service is behind it, and until then no
step of the loop for grpc-service has been made. -/
theorem registrations_run_sequentially (env : Env)
    (graphqlOracle grpcOracle : Nat → AttemptOutcome) (graphqlPort grpcPort : Int)
    (sc : Scenario) (s : State)
    (h1 : Atoi (loadConfig env).graphqlPort = Except.ok graphqlPort)
    (h2 : Atoi (loadConfig env).grpcPort = Except.ok grpcPort)
    (hen : (loadConfig env).consulEnabled = true)
    (hsc : sc.registration = (mainRegistration env graphqlOracle grpcOracle).2) :
    s.registrationTrace sc =
      (Event.mustAtoi (loadConfig env).graphqlPort ::
        (registerServiceWithConsul "graphql-service" "GraphQL" (loadConfig env).serviceAddress
          graphqlPort ["graphql", "http"] graphqlOracle).1 ++
        Event.mustAtoi (loadConfig env).grpcPort ::
        (registerServiceWithConsul "grpc-service" "gRPC" (loadConfig env).serviceAddress
          grpcPort ["grpc"] grpcOracle).1).take s.registrationSteps ∧
    ((registerServiceWithConsul "graphql-service" "GraphQL" (loadConfig env).serviceAddress
        graphqlPort ["graphql", "http"] graphqlOracle).1.length + 2 ≤ s.registrationSteps →
      ∃ rest, s.registrationTrace sc =
        Event.mustAtoi (loadConfig env).graphqlPort ::
          (registerServiceWithConsul "graphql-service" "GraphQL" (loadConfig env).serviceAddress
            graphqlPort ["graphql", "http"] graphqlOracle).1 ++
          Event.mustAtoi (loadConfig env).grpcPort :: rest) ∧
    (s.registrationSteps ≤
        (registerServiceWithConsul "graphql-service" "GraphQL" (loadConfig env).serviceAddress
          graphqlPort ["graphql", "http"] graphqlOracle).1.length + 2 →
      ∃ rest, s.registrationTrace sc ++ rest =
        Event.mustAtoi (loadConfig env).graphqlPort ::
          (registerServiceWithConsul "graphql-service" "GraphQL" (loadConfig env).serviceAddress
            graphqlPort ["graphql", "http"] graphqlOracle).1 ++
          [Event.mustAtoi (loadConfig env).grpcPort]) := by
  have hreg : sc.registration =
      some (registrationProgram (loadConfig env) graphqlOracle grpcOracle) := by
    rw [hsc]
    simp [mainRegistration, hen]
  have htrace : s.registrationTrace sc =
      (Event.mustAtoi (loadConfig env).graphqlPort ::
        (registerServiceWithConsul "graphql-service" "GraphQL" (loadConfig env).serviceAddress
          graphqlPort ["graphql", "http"] graphqlOracle).1 ++
        Event.mustAtoi (loadConfig env).grpcPort ::
        (registerServiceWithConsul "grpc-service" "gRPC" (loadConfig env).serviceAddress
          grpcPort ["grpc"] grpcOracle).1).take s.registrationSteps := by
    simp only [State.registrationTrace, hreg, registrationProgram_of_ports _ _ _ _ _ h1 h2]
  refine ⟨htrace, ?_, ?_⟩
  · intro hpast
    rw [htrace]
    generalize (registerServiceWithConsul "graphql-service" "GraphQL"
      (loadConfig env).serviceAddress graphqlPort ["graphql", "http"] graphqlOracle).1 = t1
      at hpast ⊢
    generalize (registerServiceWithConsul "grpc-service" "gRPC"
      (loadConfig env).serviceAddress grpcPort ["grpc"] grpcOracle).1 = t2
    refine ⟨t2.take (s.registrationSteps - (t1.length + 2)), ?_⟩
    have hsplit : Event.mustAtoi (loadConfig env).graphqlPort :: t1 ++
        Event.mustAtoi (loadConfig env).grpcPort :: t2 =
        (Event.mustAtoi (loadConfig env).graphqlPort :: t1 ++
          [Event.mustAtoi (loadConfig env).grpcPort]) ++ t2 := by simp
    rw [hsplit, List.take_append_eq_append_take, List.take_of_length_le (by simp; omega)]
    simp
  · intro hbefore
    rw [htrace]
    generalize (registerServiceWithConsul "graphql-service" "GraphQL"
      (loadConfig env).serviceAddress graphqlPort ["graphql", "http"] graphqlOracle).1 = t1
      at hbefore ⊢
    generalize (registerServiceWithConsul "grpc-service" "gRPC"
      (loadConfig env).serviceAddress grpcPort ["grpc"] grpcOracle).1 = t2
    refine ⟨(Event.mustAtoi (loadConfig env).graphqlPort :: t1 ++
      [Event.mustAtoi (loadConfig env).grpcPort]).drop s.registrationSteps, ?_⟩
    have hsplit : Event.mustAtoi (loadConfig env).graphqlPort :: t1 ++
        Event.mustAtoi (loadConfig env).grpcPort :: t2 =
        (Event.mustAtoi (loadConfig env).graphqlPort :: t1 ++
          [Event.mustAtoi (loadConfig env).grpcPort]) ++ t2 := by simp
    rw [hsplit, List.take_append_of_le_length (by simp; omega), List.take_append_drop]

/-- Witness of C7 (amended): the default configuration, after one step of the
registration goroutine. -/
theorem registrations_run_sequentially_witness :
    Atoi (loadConfig emptyEnv).graphqlPort = Except.ok 4001 ∧
    Atoi (loadConfig emptyEnv).grpcPort = Except.ok 50051 ∧
    (loadConfig emptyEnv).consulEnabled = true ∧
    State.registrationTrace
      { graphqlBind := true, graphqlServeFails := false, graphqlShutdownFails := false,
        grpcBind := true, grpcServeFails := false, signal := false,
        registration := (mainRegistration emptyEnv alwaysFails alwaysSucceeds).2 }
      { State.initial with registrationSteps := 1 } = [Event.mustAtoi "4001"] :=
  ⟨Atoi_4001, Atoi_50051, rfl,
   ((registrations_run_sequentially emptyEnv alwaysFails alwaysSucceeds 4001 50051
      { graphqlBind := true, graphqlServeFails := false, graphqlShutdownFails := false,
        grpcBind := true, grpcServeFails := false, signal := false,
        registration := (mainRegistration emptyEnv alwaysFails alwaysSucceeds).2 }
      { State.initial with registrationSteps := 1 } Atoi_4001 Atoi_50051 rfl rfl).1).trans
      (by simp [State.initial, loadConfig, getEnvOrDefault, emptyEnv])⟩
/-! ## Shutdown latency: claims -/

/-- C6 (evaluation at the failing input).  The GraphQL runner returns within
five seconds of observing the stop signal whatever is in flight; the gRPC
runner returns only when the work in flight has completed, so with an RPC that
needs six seconds it returns after six seconds, past the five-second grace
period, and in general its latency is unbounded. -/
theorem grpc_shutdown_has_no_deadline :
    (∀ inflight, (startGraphQLServer.afterStop inflight).1 ≤ 5 * Second) ∧
    (startGRPCServer.afterStop (6 * Second)).1 = 6 * Second ∧
    5 * Second < (startGRPCServer.afterStop (6 * Second)).1 ∧
    (∀ inflight, (startGRPCServer.afterStop inflight).1 = inflight) := by
  refine ⟨?_, rfl, by decide, fun _ => rfl⟩
  intro inflight
  unfold startGraphQLServer.afterStop httpShutdown
  split
  · assumption
  · exact Nat.le_refl _

end NginxService
